import Mathlib

/-!
# EaseMesh command line client: visitor builder and install stages

A shallow embedding of

* `emctl/cmd/client/util/builder.go` (the `visitorBuilder`),
* the readiness polls `checkOperatorStatus` / `checkMeshIngressStatus` of the
  two `meshinstall/*/deploy.go` files,
* `Deploy` and `Clear` of the operator and mesh ingress stages, and
* the access-control objects of `meshinstall/operator/rbac_spec.go`,

followed by the properties proved about them.

Conventions of the embedding:

* a method with a pointer receiver that mutates the builder becomes a function
  returning the new builder value;
* the operating system, the URL parser and the path expansion are collaborators
  of the builder; they are gathered in `Env` and every statement quantifies over
  them;
* Go strings are Lean strings; `strings.Index` is modelled on the character list;
* the `decoder` field of the builder is set once at construction and only handed
  on to the visitors; it is not modelled;
* the cluster is a pair of collaborators: the outcome of each request the
  `installbase` helpers send (`KubeAPI`, with the log of requests as state) and
  the answers to the readiness queries (`Cluster`);
* a loop that waits on the cluster takes fuel, and the statements give the fuel
  that is enough for it to return.
-/

set_option autoImplicit false

namespace EaseMesh

/-! ## Data model of `builder.go` -/

/-- FileExtensions of `builder.go`. -/
def FileExtensions : List String := [".json", ".yaml", ".yml"]

/-- CommandOptions holds command option. -/
structure CommandOptions where
  Kind : String
  Name : String
  deriving DecidableEq, Repr

/-- FilenameOptions holds filename option. -/
structure FilenameOptions where
  Filenames : List String
  Recursive : Bool
  deriving DecidableEq, Repr

/-- A parsed URL, as returned by `url.Parse`; only its text is observed. -/
structure URL where
  text : String
  deriving DecidableEq, Repr

/-- The four visitor variants the builder creates: `newCommandVisitor`,
`FileVisitorForSTDIN`, `&urlVisitor{...}` and the file visitors that
`expandPathsToFileVisitors` returns. -/
inductive Visitor
  | commandVisitor (kind name : String)
  | stdinVisitor
  | urlVisitor (u : URL) (httpAttemptCount : Int)
  | fileVisitor (file : String)
  deriving DecidableEq, Repr

/-- The errors appended to `b.errs`, one constructor per `Errorf` call site of
`builder.go`. -/
inductive BuildError
  /-- Message "Stdin already in used" -/
  | stdinInUse
  /-- Message "the URL passed to filename %q is not valid: %v" -/
  | invalidURL (s : String) (cause : String)
  /-- Message "the path %q does not exist" -/
  | pathNotExist (p : String)
  /-- Message "the path %q cannot be accessed: %v" -/
  | pathNoAccess (p : String) (cause : String)
  /-- Message "error reading %q: %v" -/
  | readError (p : String) (cause : String)
  /-- Message "error reading %v: recognized file extensions are %v" -/
  | noRecognizedFile (paths : List String) (extensions : List String)
  deriving DecidableEq, Repr

/-- The single error `Do` returns: `fmt.Errorf("%+v", b.errs)`, the rendering of
the whole accumulated error list. -/
inductive DoError
  | aggregate (errs : List BuildError)
  deriving DecidableEq, Repr

/-- Outcome of `os.Stat` as far as `path` inspects it. -/
inductive StatResult
  /-- The case `err == nil` -/
  | found
  /-- The case `os.IsNotExist(err)` -/
  | notExist
  /-- Any other non-nil error -/
  | failed (cause : String)
  deriving DecidableEq, Repr

/-- Collaborators of the builder. `stat` is `os.Stat`, `parseURL` is
`url.Parse`. -/
structure Env where
  stat : String → StatResult
  parseURL : String → Except String URL
  /-- Modelled from the spec: `expandPathsToFileVisitors` (its file, visitor.go,
  is not among the sources). Given a path, the recursive flag and the recognised
  extensions it "expands to one Visitor per matched file"; the result lists the
  matched files and the error, if any. -/
  expand : String → Bool → List String → List String × Option String

/-- The builder state (`visitorBuilder` struct). -/
structure visitorBuilder where
  visitors : List Visitor
  httpGetAttempts : Int
  errs : List BuildError
  singleItemImplied : Bool
  commandOptions : Option CommandOptions
  filenameOptions : Option FilenameOptions
  stdinInUse : Bool
  deriving DecidableEq, Repr

/-- Result of `Do`: the builder as `Do` leaves it and the returned pair
`([]Visitor, error)`; a nil slice is the empty list. -/
structure DoResult where
  builder : visitorBuilder
  visitors : List Visitor
  err : Option DoError
  deriving DecidableEq, Repr

/-! ## `strings.Index` -/

/-- Search of `strings.Index`: index of the first instance of `sub` in the text
that starts at offset `i`, or `-1` when there is none. -/
def indexFrom (sub : List Char) : List Char → Nat → Int
  | [], i => if sub = [] then (i : Int) else -1
  | c :: cs, i => if sub.isPrefixOf (c :: cs) then (i : Int) else indexFrom sub cs (i + 1)

/-- Go `strings.Index(s, substr)`. -/
def stringsIndex (s substr : String) : Int :=
  indexFrom substr.toList s.toList 0

/-! ## Operations of `builder.go` -/

/-- NewVisitorBuilder return a VisitorBuilder. -/
def NewVisitorBuilder : visitorBuilder :=
  { visitors := [], httpGetAttempts := 3, errs := [], singleItemImplied := false,
    commandOptions := none, filenameOptions := none, stdinInUse := false }

namespace visitorBuilder

def HTTPAttemptCount (b : visitorBuilder) (httpGetAttempts : Int) : visitorBuilder :=
  { b with httpGetAttempts := httpGetAttempts }

def FilenameParam (b : visitorBuilder) (filenameOptions : Option FilenameOptions) :
    visitorBuilder :=
  { b with filenameOptions := filenameOptions }

def CommandParam (b : visitorBuilder) (commandOptions : Option CommandOptions) :
    visitorBuilder :=
  { b with commandOptions := commandOptions }

def Command (b : visitorBuilder) : visitorBuilder :=
  match b.commandOptions with
  | none => b
  | some co => { b with visitors := b.visitors ++ [Visitor.commandVisitor co.Kind co.Name] }

/-- URL: one `urlVisitor` per given URL. -/
def URL (b : visitorBuilder) (httpAttemptCount : Int) (urls : List URL) : visitorBuilder :=
  urls.foldl
    (fun b u => { b with visitors := b.visitors ++ [Visitor.urlVisitor u httpAttemptCount] }) b

def Stdin (b : visitorBuilder) : visitorBuilder :=
  let b1 := if b.stdinInUse then { b with errs := b.errs ++ [BuildError.stdinInUse] } else b
  let b2 := { b1 with stdinInUse := true }
  { b2 with visitors := b2.visitors ++ [Visitor.stdinVisitor] }

/-- Body of the `for _, p := range paths` loop of `path`. -/
def pathStep (env : Env) (recursive : Bool) (b : visitorBuilder) (p : String) :
    visitorBuilder :=
  match env.stat p with
  | StatResult.notExist => { b with errs := b.errs ++ [BuildError.pathNotExist p] }
  | StatResult.failed cause => { b with errs := b.errs ++ [BuildError.pathNoAccess p cause] }
  | StatResult.found =>
    let r := env.expand p recursive FileExtensions
    let b1 :=
      match r.2 with
      | some cause => { b with errs := b.errs ++ [BuildError.readError p cause] }
      | none => b
    { b1 with visitors := b1.visitors ++ r.1.map Visitor.fileVisitor }

def path (b : visitorBuilder) (env : Env) (recursive : Bool) (paths : List String) :
    visitorBuilder :=
  let b1 := paths.foldl (pathStep env recursive) b
  if b1.visitors.length = 0 then
    { b1 with errs := b1.errs ++ [BuildError.noRecognizedFile paths FileExtensions] }
  else b1

/-- Body of the `for _, s := range paths` loop of `File`. -/
def fileStep (env : Env) (recursive : Bool) (b : visitorBuilder) (s : String) :
    visitorBuilder :=
  if s = "-" then
    b.Stdin
  else if stringsIndex s "http://" = 0 ∨ stringsIndex s "https://" = 0 then
    match env.parseURL s with
    | Except.error cause => { b with errs := b.errs ++ [BuildError.invalidURL s cause] }
    | Except.ok url => b.URL b.httpGetAttempts [url]
  else
    let b1 := if !recursive then { b with singleItemImplied := true } else b
    b1.path env recursive [s]

def File (b : visitorBuilder) (env : Env) : visitorBuilder :=
  match b.filenameOptions with
  | none => b
  | some fo => fo.Filenames.foldl (fileStep env fo.Recursive) b

def Do (b : visitorBuilder) (env : Env) : DoResult :=
  let b1 := b.Command
  let b2 := b1.File env
  if b2.errs.length ≠ 0 then
    { builder := b2, visitors := [], err := some (DoError.aggregate b2.errs) }
  else
    { builder := b2, visitors := b2.visitors, err := none }

end visitorBuilder

/-! ## Concrete collaborators used in examples -/

/-- A small file system: `a.yaml` exists and is a single file, `emptydir` exists
and holds no recognised file, every other path is missing; a string parses as a
URL unless it contains a space. -/
def demoEnv : Env :=
  { stat := fun p => if p = "a.yaml" ∨ p = "emptydir" then StatResult.found else StatResult.notExist
    parseURL := fun s => if ' ' ∈ s.toList then Except.error "invalid character in host name"
      else Except.ok ⟨s⟩
    expand := fun p _ _ => if p = "a.yaml" then (["a.yaml"], none) else ([], none) }

/-! ## What one filename contributes

The loop body of `File` is characterised by three functions of the filename and
of the part of the builder state it reads. -/

/-- The scheme test of `File`. -/
abbrev urlScheme (s : String) : Prop :=
  stringsIndex s "http://" = 0 ∨ stringsIndex s "https://" = 0

/-- Visitors appended while `File` processes the filename `s`. -/
def entryVisitors (env : Env) (recursive : Bool) (attempts : Int) (s : String) :
    List Visitor :=
  if s = "-" then [Visitor.stdinVisitor]
  else if urlScheme s then
    match env.parseURL s with
    | Except.error _ => []
    | Except.ok url => [Visitor.urlVisitor url attempts]
  else
    match env.stat s with
    | StatResult.found => (env.expand s recursive FileExtensions).1.map Visitor.fileVisitor
    | _ => []

/-- Errors appended while `File` processes the filename `s`, in a builder whose
stdin flag is `inUse` and whose visitor sequence is `vs`. -/
def entryErrs (env : Env) (recursive : Bool) (attempts : Int) (inUse : Bool)
    (vs : List Visitor) (s : String) : List BuildError :=
  if s = "-" then (if inUse then [BuildError.stdinInUse] else [])
  else if urlScheme s then
    match env.parseURL s with
    | Except.error cause => [BuildError.invalidURL s cause]
    | Except.ok _ => []
  else
    (match env.stat s with
      | StatResult.notExist => [BuildError.pathNotExist s]
      | StatResult.failed cause => [BuildError.pathNoAccess s cause]
      | StatResult.found =>
        match (env.expand s recursive FileExtensions).2 with
        | some cause => [BuildError.readError s cause]
        | none => [])
    ++ (if vs ++ entryVisitors env recursive attempts s = [] then
          [BuildError.noRecognizedFile [s] FileExtensions] else [])

/-- Value of `singleItemImplied` after `File` has processed the filename `s`. -/
def entrySingle (recursive : Bool) (single : Bool) (s : String) : Bool :=
  if s = "-" then single
  else if urlScheme s then single
  else if !recursive then true else single

/-- Errors appended while `File` processes the filenames `l` in order. -/
def loopErrs (env : Env) (recursive : Bool) (attempts : Int) :
    Bool → List Visitor → List String → List BuildError
  | _, _, [] => []
  | inUse, vs, s :: l =>
    entryErrs env recursive attempts inUse vs s ++
      loopErrs env recursive attempts (inUse || decide (s = "-"))
        (vs ++ entryVisitors env recursive attempts s) l

/-! ## Visitors contributed by one call -/

/-- Visitors one call of `Command` appends. -/
def commandVisitors (b : visitorBuilder) : List Visitor :=
  match b.commandOptions with
  | none => []
  | some co => [Visitor.commandVisitor co.Kind co.Name]

/-- Visitors one call of `File` appends. -/
def fileVisitors (env : Env) (b : visitorBuilder) : List Visitor :=
  match b.filenameOptions with
  | none => []
  | some fo => fo.Filenames.flatMap (entryVisitors env fo.Recursive b.httpGetAttempts)

/-! ## Valid filenames -/

/-- A filename that is valid on its own and yields one visitor: the stdin marker,
a URL with an http or https scheme that parses, or an existing path that
expands to exactly one file without error. -/
def validEntry (env : Env) (recursive : Bool) (s : String) : Bool :=
  if s = "-" then true
  else if stringsIndex s "http://" = 0 ∨ stringsIndex s "https://" = 0 then
    match env.parseURL s with
    | Except.ok _ => true
    | Except.error _ => false
  else
    match env.stat s with
    | StatResult.found =>
      (match env.expand s recursive FileExtensions with
        | ([_], none) => true
        | _ => false)
    | _ => false

/-! ## What `path` contributes -/

/-- Visitors the loop of `path` appends: the file visitors of every path that
`os.Stat` finds. -/
def expandedVisitors (env : Env) (recursive : Bool) (paths : List String) : List Visitor :=
  paths.flatMap (fun p =>
    match env.stat p with
    | StatResult.found => (env.expand p recursive FileExtensions).1.map Visitor.fileVisitor
    | _ => [])

/-- Errors the loop of `path` appends. -/
def expandErrs (env : Env) (recursive : Bool) (paths : List String) : List BuildError :=
  paths.flatMap (fun p =>
    match env.stat p with
    | StatResult.notExist => [BuildError.pathNotExist p]
    | StatResult.failed cause => [BuildError.pathNoAccess p cause]
    | StatResult.found =>
      match (env.expand p recursive FileExtensions).2 with
      | some cause => [BuildError.readError p cause]
      | none => [])

/-! ## Reachable builder states -/

/-- Builder states reachable from `NewVisitorBuilder` through the methods of the
`VisitorBuilder` interface; each call may see its own environment. -/
inductive Reachable : visitorBuilder → Prop
  | new : Reachable NewVisitorBuilder
  | httpAttemptCount {b : visitorBuilder} (n : Int) :
      Reachable b → Reachable (b.HTTPAttemptCount n)
  | filenameParam {b : visitorBuilder} (fo : Option FilenameOptions) :
      Reachable b → Reachable (b.FilenameParam fo)
  | commandParam {b : visitorBuilder} (co : Option CommandOptions) :
      Reachable b → Reachable (b.CommandParam co)
  | command {b : visitorBuilder} : Reachable b → Reachable b.Command
  | doCall {b : visitorBuilder} (env : Env) : Reachable b → Reachable (b.Do env).builder
  | file {b : visitorBuilder} (env : Env) : Reachable b → Reachable (b.File env)
  | url {b : visitorBuilder} (n : Int) (urls : List URL) : Reachable b → Reachable (b.URL n urls)
  | stdin {b : visitorBuilder} : Reachable b → Reachable b.Stdin

/-- The stdin discipline the builder keeps: a stdin visitor in the sequence means
the flag is set, and two of them mean the "Stdin already in used" error has been
recorded. -/
def StdinInv (b : visitorBuilder) : Prop :=
  (Visitor.stdinVisitor ∈ b.visitors → b.stdinInUse = true) ∧
  (2 ≤ b.visitors.count Visitor.stdinVisitor → BuildError.stdinInUse ∈ b.errs)

/-! ## Readiness polling (`meshinstall/operator/deploy.go`, `meshinstall/meshingress/deploy.go`) -/

/-- DefaultMeshOperatorName of `base/const.go`. -/
def DefaultMeshOperatorName : String := "easemesh-operator"

/-- DefaultMeshIngressControllerName of `base/const.go`. -/
def DefaultMeshIngressControllerName : String := "easemesh-ingress-easegress"

/-- The pair `(ready, err)` that `installbase.CheckDeploymentResourceStatus`
returns; `err = none` is the nil error. -/
structure StatusAnswer where
  ready : Bool
  err : Option String
  deriving DecidableEq, Repr

/-- The cluster as the polls see it: the answer to the `n`-th readiness query
(counted from 1) about the deployment `name` in `namespace`. -/
abbrev Cluster := String → String → Nat → StatusAnswer

/-- Errors a poll returns: the one it builds itself with `errors.Errorf` once the
attempts are used up, or the error of the readiness query. -/
inductive PollError
  | deployFailed (msg : String)
  | queryError (e : String)
  deriving DecidableEq, Repr

/-- Outcome of a poll: the returned error (`none` is nil), the number of readiness
queries made and the number of `time.Sleep` calls of 100ms. -/
structure PollResult where
  err : Option PollError
  queries : Nat
  sleeps : Nat
  deriving DecidableEq, Repr

/-- The `for` loop shared by `checkOperatorStatus` and `checkMeshIngressStatus`,
entered with the counter `i` after `queries` queries and `sleeps` sleeps. Each
unfolding is one iteration; `fuel` bounds the iterations and `none` means the
bound was hit. -/
def pollLoop (notReadyMsg : String) (query : Nat → StatusAnswer) :
    Nat → Nat → Nat → Nat → Option PollResult
  | 0, _, _, _ => none
  | fuel + 1, i, queries, sleeps =>
    let sleeps := sleeps + 1
    let i := i + 1
    if i > 600 then
      some { err := some (PollError.deployFailed notReadyMsg), queries := queries, sleeps := sleeps }
    else
      let answer := query (queries + 1)
      let queries := queries + 1
      if answer.ready then
        some { err := none, queries := queries, sleeps := sleeps }
      else
        match answer.err with
        | some e => some { err := some (PollError.queryError e), queries := queries, sleeps := sleeps }
        | none => pollLoop notReadyMsg query fuel i queries sleeps

/-- The message of the error `checkOperatorStatus` builds. -/
def operatorNotReady : String :=
  "easemesh operator deploy failed, mesh operator (EG deployment) not ready"

/-- The message of the error `checkMeshIngressStatus` builds. -/
def meshIngressNotReady : String :=
  "easeMesh meshingress controller deploy failed, mesh ingress controller (EG deployment) not ready"

/-- The poll of the operator stage; `meshNamespace` is `installFlags.MeshNamespace`. -/
def checkOperatorStatus (cluster : Cluster) (meshNamespace : String) (fuel : Nat) :
    Option PollResult :=
  pollLoop operatorNotReady (cluster meshNamespace DefaultMeshOperatorName) fuel 0 0 0

/-- The poll of the mesh ingress stage; `meshNamespace` is `args.MeshNameSpace`. -/
def checkMeshIngressStatus (cluster : Cluster) (meshNamespace : String) (fuel : Nat) :
    Option PollResult :=
  pollLoop meshIngressNotReady (cluster meshNamespace DefaultMeshIngressControllerName) fuel 0 0 0

/-- A cluster in which every deployment is ready at the fifth query and not
before. -/
def readyAtFifth : Cluster :=
  fun _ _ n => if n = 5 then { ready := true, err := none } else { ready := false, err := none }

/-- A cluster in which no deployment ever gets ready and no query fails. -/
def neverReady : Cluster :=
  fun _ _ _ => { ready := false, err := none }

/-! ## The cluster as the install stages see it -/

/-- Fields of `metav1.ObjectMeta` that the stage sets; an unset namespace is the
empty string. -/
structure ObjectMeta where
  Name : String
  Namespace : String
  deriving DecidableEq, Repr

/-- Fields of `rbacv1.PolicyRule` that the stage sets. -/
structure PolicyRule where
  APIGroups : List String
  Resources : List String
  NonResourceURLs : List String
  Verbs : List String
  deriving DecidableEq, Repr

/-- A `rbacv1.Role`. -/
structure Role where
  Meta : ObjectMeta
  Rules : List PolicyRule
  deriving DecidableEq, Repr

/-- A `rbacv1.ClusterRole`. -/
structure ClusterRole where
  Meta : ObjectMeta
  Rules : List PolicyRule
  deriving DecidableEq, Repr

/-- A `rbacv1.RoleRef`. -/
structure RoleRef where
  APIGroup : String
  Kind : String
  Name : String
  deriving DecidableEq, Repr

/-- A `rbacv1.Subject`. -/
structure Subject where
  Kind : String
  Name : String
  Namespace : String
  deriving DecidableEq, Repr

/-- A `rbacv1.RoleBinding`. -/
structure RoleBinding where
  Meta : ObjectMeta
  Ref : RoleRef
  Subjects : List Subject
  deriving DecidableEq, Repr

/-- A `rbacv1.ClusterRoleBinding`. -/
structure ClusterRoleBinding where
  Meta : ObjectMeta
  Ref : RoleRef
  Subjects : List Subject
  deriving DecidableEq, Repr

/-- The three groups of resources `Clear` deletes from. -/
inductive Category
  | appsV1
  | coreV1
  | rbacV1
  deriving DecidableEq, Repr

/-- A request the stages send to the cluster through the `installbase` helpers. -/
inductive Request
  | deployRole (role : Role) (ns : String)
  | deployClusterRole (clusterRole : ClusterRole)
  | deployRoleBinding (roleBinding : RoleBinding) (ns : String)
  | deployClusterRoleBinding (clusterRoleBinding : ClusterRoleBinding)
  | applyResource (kind name ns : String)
  | delete (category : Category) (kind name ns : String)
  deriving DecidableEq, Repr

/-- The cluster API: the outcome of a request, nil (`none`) or an error, given
the requests made before it. -/
abbrev KubeAPI := List Request → Request → Option String

/-- One call of the cluster API: the request is recorded and its outcome
returned. -/
def send (api : KubeAPI) (req : Request) (log : List Request) : List Request × Option String :=
  (log ++ [req], api log req)

/-- The `kubernetes.Clientset` handle: the cluster API and the readiness answers. -/
structure Clientset where
  api : KubeAPI
  status : Cluster

/-- The type `flags.Install`, as far as the operator stage reads it. -/
structure Install where
  MeshNamespace : String
  deriving DecidableEq, Repr

/-- The type `installbase.InstallArgs`, as far as the mesh ingress stage reads it. -/
structure InstallArgs where
  MeshNameSpace : String
  deriving DecidableEq, Repr

/-- The fields of `installbase.StageContext` the two stages read: `Flags` in the
operator stage, `Arguments` in the mesh ingress stage. -/
structure StageContext where
  Client : Clientset
  Flags : Install
  Arguments : InstallArgs

/-- An `installbase.InstallFunc`, `func(cmd, kubeClient, installFlags) error`: it
sends requests through the client, which extends the log of requests, and
returns nil (`none`) or an error. -/
abbrev InstallFunc (F : Type) := KubeAPI → F → List Request → List Request × Option String

/-- Go `errors.Wrapf(err, msg)`: the message is put in front of the cause. -/
def Wrapf (err : String) (msg : String) : String :=
  msg ++ ": " ++ err

/-- Modelled from the spec: `installbase.DeployRole` (not among the sources), the
collaborator primitive that applies a Role, one request to the cluster. -/
def DeployRole (role : Role) (client : KubeAPI) (ns : String) (log : List Request) :
    List Request × Option String :=
  send client (Request.deployRole role ns) log

/-- Modelled from the spec: `installbase.DeployClusterRole` (not among the
sources), the collaborator primitive that applies a ClusterRole. -/
def DeployClusterRole (clusterRole : ClusterRole) (client : KubeAPI) (log : List Request) :
    List Request × Option String :=
  send client (Request.deployClusterRole clusterRole) log

/-- Modelled from the spec: `installbase.DeployRoleBinding` (not among the
sources), the collaborator primitive that applies a RoleBinding. -/
def DeployRoleBinding (roleBinding : RoleBinding) (client : KubeAPI) (ns : String)
    (log : List Request) : List Request × Option String :=
  send client (Request.deployRoleBinding roleBinding ns) log

/-- Modelled from the spec: `installbase.DeployClusterRoleBinding` (not among the
sources), the collaborator primitive that applies a ClusterRoleBinding. -/
def DeployClusterRoleBinding (clusterRoleBinding : ClusterRoleBinding) (client : KubeAPI)
    (log : List Request) : List Request × Option String :=
  send client (Request.deployClusterRoleBinding clusterRoleBinding) log

/-- Modelled from the spec: `installbase.BatchDeployResources` (not among the
sources). It "applies an ordered list of InstallFuncs" and "stops at first
failing InstallFunc", whose error it returns; resources already applied remain
applied. -/
def BatchDeployResources {F : Type} (client : KubeAPI) (installFlags : F) :
    List (InstallFunc F) → List Request → List Request × Option String
  | [], log => (log, none)
  | installFunc :: rest, log =>
    match installFunc client installFlags log with
    | (log1, some err) => (log1, some err)
    | (log1, none) => BatchDeployResources client installFlags rest log1

/-- The delete helpers handed to `DeleteResources`. -/
abbrev DeleteFunc := KubeAPI → String → String → String → List Request →
  List Request × Option String

/-- Modelled from the spec: `installbase.DeleteAppsV1Resource` (not among the
sources), one delete call `DeleteResource(kind, name, namespace)` for a workload
resource. -/
def DeleteAppsV1Resource : DeleteFunc :=
  fun client kind name ns log => send client (Request.delete Category.appsV1 kind name ns) log

/-- Modelled from the spec: `installbase.DeleteCoreV1Resource` (not among the
sources), one delete call for a core resource. -/
def DeleteCoreV1Resource : DeleteFunc :=
  fun client kind name ns log => send client (Request.delete Category.coreV1 kind name ns) log

/-- Modelled from the spec: `installbase.DeleteRbacV1Resources` (not among the
sources), one delete call for an access-control resource. -/
def DeleteRbacV1Resources : DeleteFunc :=
  fun client kind name ns log => send client (Request.delete Category.rbacV1 kind name ns) log

/-- Modelled from the spec: `installbase.DeleteResources` (not among the
sources). It "issues best-effort delete calls" for the given (resource-kind,
resource-name) pairs; "failures are not aggregated into a returned error".
Each two-element slice `{kind, name}` of the source is a pair here. -/
def DeleteResources (client : KubeAPI) (resources : List (String × String)) (ns : String)
    (deleteFunc : DeleteFunc) (log : List Request) : List Request :=
  resources.foldl (fun log r => (deleteFunc client r.1 r.2 ns log).1) log

/-- The error a stage operation returns: the error of the batch of install
functions, or the error of the readiness poll. -/
inductive StageError
  | install (err : String)
  | poll (err : PollError)
  deriving DecidableEq, Repr

/-- Outcome of `Deploy`: the returned error (`none` is nil), the requests sent to
the cluster, and the outcome of the readiness poll when the poll was run. -/
structure DeployResult where
  err : Option StageError
  log : List Request
  poll : Option PollResult
  deriving DecidableEq, Repr

/-! ## Constants of `base/const.go` used by the stages -/

/-- DefaultMeshOperatorControllerManagerServiceName of `base/const.go`. -/
def DefaultMeshOperatorControllerManagerServiceName : String :=
  "mesh-operator-controller-manager-metrics-service"

/-- DefaultMeshIngressConfig of `base/const.go`. -/
def DefaultMeshIngressConfig : String := "easemesh-ingress-config"

/-- DefaultMeshIngressService of `base/const.go`. -/
def DefaultMeshIngressService : String := "easemesh-ingress-service"

/-! ## The operator stage (`meshinstall/operator`) -/

namespace operator

def meshOperatorConfigMap : String := "easemesh-operator-config"

def meshOperatorLeaderElectionRole : String := "mesh-operator-leader-election-role"

def meshOperatorLeaderElectionRoleBinding : String := "mesh-operator-leader-election-rolebinding"

def meshOperatorManagerClusterRole : String := "mesh-operator-manager-role"

def meshOperatorManagerClusterRoleBinding : String := "mesh-operator-manager-rolebinding"

def meshOperatorMetricsReaderClusterRole : String := "mesh-operator-metrics-reader-role"

def meshOperatorMetricsReaderClusterRoleBinding : String :=
  "mesh-operator-metrics-reader-rolebinding"

def meshOperatorProxyClusterRole : String := "mesh-operator-proxy-role"

def meshOperatorProxyClusterRoleBinding : String := "mesh-operator-proxy-rolebinding"

def roleVerbGet : String := "get"

def roleVerbList : String := "list"

def roleVerbWatch : String := "watch"

def roleVerbCreate : String := "create"

def roleVerbUpdate : String := "update"

def roleVerbPatch : String := "patch"

def roleVerbDelete : String := "delete"

/-- The Role object `roleSpec` builds. -/
def operatorLeaderElectionRole (installFlags : Install) : Role :=
  { Meta := { Namespace := installFlags.MeshNamespace, Name := meshOperatorLeaderElectionRole }
    Rules := [
      { APIGroups := [""], Resources := ["configmaps", "leases"], NonResourceURLs := [],
        Verbs := [roleVerbGet, roleVerbList, roleVerbWatch, roleVerbCreate, roleVerbUpdate,
          roleVerbPatch, roleVerbDelete] },
      { APIGroups := ["", "coordination.k8s.io"], Resources := ["events"], NonResourceURLs := [],
        Verbs := [roleVerbCreate, roleVerbPatch] }] }

def roleSpec (installFlags : Install) : InstallFunc Install :=
  fun kubeClient installFlags1 log =>
    match DeployRole (operatorLeaderElectionRole installFlags) kubeClient
        installFlags1.MeshNamespace log with
    | (log1, some err) => (log1, some err)
    | (log1, none) => (log1, none)

/-- The first ClusterRole object `clusterRoleSpec` builds. -/
def operatorManagerClusterRole : ClusterRole :=
  { Meta := { Name := meshOperatorManagerClusterRole, Namespace := "" }
    Rules := [
      { APIGroups := ["apps"], Resources := ["deployments"], NonResourceURLs := [],
        Verbs := [roleVerbGet, roleVerbList, roleVerbWatch, roleVerbCreate, roleVerbUpdate,
          roleVerbPatch, roleVerbDelete] },
      { APIGroups := [""], Resources := ["pods"], NonResourceURLs := [],
        Verbs := [roleVerbGet, roleVerbList] },
      { APIGroups := ["mesh.megaease.com"], Resources := ["meshdeployments"],
        NonResourceURLs := [],
        Verbs := [roleVerbGet, roleVerbList, roleVerbWatch, roleVerbCreate, roleVerbUpdate,
          roleVerbPatch, roleVerbDelete] },
      { APIGroups := ["mesh.megaease.com"], Resources := ["meshdeployments/finalizers"],
        NonResourceURLs := [], Verbs := [roleVerbUpdate] },
      { APIGroups := ["mesh.megaease.com"], Resources := ["meshdeployments/status"],
        NonResourceURLs := [], Verbs := [roleVerbGet, roleVerbPatch, roleVerbUpdate] }] }

/-- The second ClusterRole object `clusterRoleSpec` builds. -/
def metricsReaderClusterRole : ClusterRole :=
  { Meta := { Name := meshOperatorMetricsReaderClusterRole, Namespace := "" }
    Rules := [
      { APIGroups := [], Resources := [], NonResourceURLs := ["/metrics"],
        Verbs := [roleVerbGet] }] }

/-- The third ClusterRole object `clusterRoleSpec` builds. -/
def operatorProxyClusterRole : ClusterRole :=
  { Meta := { Name := meshOperatorProxyClusterRole, Namespace := "" }
    Rules := [
      { APIGroups := ["authentication.k8s.io"], Resources := ["tokenreviews"],
        NonResourceURLs := [], Verbs := [roleVerbCreate] },
      { APIGroups := ["authentication.k8s.io"], Resources := ["subjectaccessreviews"],
        NonResourceURLs := [], Verbs := [roleVerbCreate] }] }

/-- The `for _, clusterRole := range ...` loop of `clusterRoleSpec`. -/
def deployClusterRoles (kubeClient : KubeAPI) :
    List ClusterRole → List Request → List Request × Option String
  | [], log => (log, none)
  | clusterRole :: rest, log =>
    match DeployClusterRole clusterRole kubeClient log with
    | (log1, some err) =>
      (log1, some (Wrapf err ("createClusterRole role " ++ clusterRole.Meta.Name)))
    | (log1, none) => deployClusterRoles kubeClient rest log1

def clusterRoleSpec (_installFlags : Install) : InstallFunc Install :=
  fun kubeClient _installFlags1 log =>
    deployClusterRoles kubeClient
      [operatorManagerClusterRole, metricsReaderClusterRole, operatorProxyClusterRole] log

/-- The RoleBinding object `roleBindingSpec` builds. -/
def operatorLeaderElectionRoleBinding (installFlags : Install) : RoleBinding :=
  { Meta := { Name := meshOperatorLeaderElectionRoleBinding,
              Namespace := installFlags.MeshNamespace }
    Ref := { APIGroup := "rbac.authorization.k8s.io", Kind := "Role",
             Name := meshOperatorLeaderElectionRole }
    Subjects := [{ Kind := "ServiceAccount", Name := "default",
                   Namespace := installFlags.MeshNamespace }] }

def roleBindingSpec (installFlags : Install) : InstallFunc Install :=
  fun kubeClient installFlags1 log =>
    match DeployRoleBinding (operatorLeaderElectionRoleBinding installFlags) kubeClient
        installFlags1.MeshNamespace log with
    | (log1, some err) => (log1, some err)
    | (log1, none) => (log1, none)

/-- The first ClusterRoleBinding object `clusterRoleBindingSpec` builds. -/
def operatorManagerClusterRoleBinding (installFlags : Install) : ClusterRoleBinding :=
  { Meta := { Name := meshOperatorManagerClusterRoleBinding, Namespace := "" }
    Ref := { APIGroup := "rbac.authorization.k8s.io", Kind := "ClusterRole",
             Name := meshOperatorManagerClusterRole }
    Subjects := [{ Kind := "ServiceAccount", Name := "default",
                   Namespace := installFlags.MeshNamespace }] }

/-- The second ClusterRoleBinding object `clusterRoleBindingSpec` builds. -/
def operatorProxyClusterRoleBinding (installFlags : Install) : ClusterRoleBinding :=
  { Meta := { Name := meshOperatorProxyClusterRoleBinding, Namespace := "" }
    Ref := { APIGroup := "rbac.authorization.k8s.io", Kind := "ClusterRole",
             Name := meshOperatorProxyClusterRole }
    Subjects := [{ Kind := "ServiceAccount", Name := "default",
                   Namespace := installFlags.MeshNamespace }] }

/-- The third ClusterRoleBinding object `clusterRoleBindingSpec` builds. -/
def operatorMetricsReaderClusterRoleBinding (installFlags : Install) : ClusterRoleBinding :=
  { Meta := { Name := meshOperatorMetricsReaderClusterRoleBinding, Namespace := "" }
    Ref := { APIGroup := "rbac.authorization.k8s.io", Kind := "ClusterRole",
             Name := meshOperatorMetricsReaderClusterRole }
    Subjects := [{ Kind := "ServiceAccount", Name := "default",
                   Namespace := installFlags.MeshNamespace }] }

/-- The `for _, clusterRoleBinding := range clusterRoleBindings` loop of
`clusterRoleBindingSpec`. -/
def deployClusterRoleBindings (kubeClient : KubeAPI) :
    List ClusterRoleBinding → List Request → List Request × Option String
  | [], log => (log, none)
  | clusterRoleBinding :: rest, log =>
    match DeployClusterRoleBinding clusterRoleBinding kubeClient log with
    | (log1, some err) =>
      (log1, some (Wrapf err ("Create roleBinding " ++ clusterRoleBinding.Meta.Name)))
    | (log1, none) => deployClusterRoleBindings kubeClient rest log1

def clusterRoleBindingSpec (installFlags : Install) : InstallFunc Install :=
  fun kubeClient _installFlags1 log =>
    deployClusterRoleBindings kubeClient
      [operatorManagerClusterRoleBinding installFlags,
        operatorProxyClusterRoleBinding installFlags,
        operatorMetricsReaderClusterRoleBinding installFlags] log

/-- The spec functions of the operator stage whose files are not among the
sources; they are parameters of the stage. -/
structure Specs where
  configMapSpec : Install → InstallFunc Install
  serviceSpec : Install → InstallFunc Install
  operatorDeploymentSpec : Install → InstallFunc Install

/-- The list of install functions `Deploy` hands to `BatchDeployResources`. -/
def installFuncs (specs : Specs) (installFlags : Install) : List (InstallFunc Install) :=
  [specs.configMapSpec installFlags,
    specs.serviceSpec installFlags,
    roleSpec installFlags,
    clusterRoleSpec installFlags,
    roleBindingSpec installFlags,
    clusterRoleBindingSpec installFlags,
    specs.operatorDeploymentSpec installFlags]

/-- Deploy deploy resources of operator; `fuel` is the fuel of the poll. -/
def Deploy (specs : Specs) (context : StageContext) (fuel : Nat) (log : List Request) :
    Option DeployResult :=
  match BatchDeployResources context.Client.api context.Flags
      (installFuncs specs context.Flags) log with
  | (log1, some err) => some { err := some (StageError.install err), log := log1, poll := none }
  | (log1, none) =>
    match checkOperatorStatus context.Client.status context.Flags.MeshNamespace fuel with
    | none => none
    | some r => some { err := r.err.map StageError.poll, log := log1, poll := some r }

/-- The local `appsV1Resources` of `Clear`. -/
def appsV1Resources : List (String × String) :=
  [("deployments", DefaultMeshOperatorName)]

/-- The local `coreV1Resources` of `Clear`. -/
def coreV1Resources : List (String × String) :=
  [("services", DefaultMeshOperatorControllerManagerServiceName),
    ("configmap", meshOperatorConfigMap)]

/-- The local `rbacV1Resources` of `Clear`. -/
def rbacV1Resources : List (String × String) :=
  [("rolebindings", meshOperatorLeaderElectionRoleBinding),
    ("roles", meshOperatorLeaderElectionRole),
    ("clusterrolebindings", meshOperatorManagerClusterRoleBinding),
    ("clusterroles", meshOperatorManagerClusterRole),
    ("clusterrolebindings", meshOperatorMetricsReaderClusterRoleBinding),
    ("clusterroles", meshOperatorMetricsReaderClusterRole),
    ("clusterrolebindings", meshOperatorProxyClusterRoleBinding),
    ("clusterroles", meshOperatorProxyClusterRole)]

/-- Clear clears all k8s resources about operator: the log of requests after the
three `DeleteResources` calls, and the returned error. -/
def Clear (context : StageContext) (log : List Request) : List Request × Option StageError :=
  let log1 := DeleteResources context.Client.api appsV1Resources context.Flags.MeshNamespace
    DeleteAppsV1Resource log
  let log2 := DeleteResources context.Client.api coreV1Resources context.Flags.MeshNamespace
    DeleteCoreV1Resource log1
  let log3 := DeleteResources context.Client.api rbacV1Resources context.Flags.MeshNamespace
    DeleteRbacV1Resources log2
  (log3, none)

end operator

/-! ## The mesh ingress stage (`meshinstall/meshingress`) -/

namespace meshingress

/-- The spec functions of the mesh ingress stage; their files are not among the
sources and they are parameters of the stage. -/
structure Specs where
  configMapSpec : InstallArgs → InstallFunc InstallArgs
  serviceSpec : InstallArgs → InstallFunc InstallArgs
  deploymentSpec : InstallArgs → InstallFunc InstallArgs

/-- The list of install functions `Deploy` hands to `BatchDeployResources`. -/
def installFuncs (specs : Specs) (args : InstallArgs) : List (InstallFunc InstallArgs) :=
  [specs.configMapSpec args,
    specs.serviceSpec args,
    specs.deploymentSpec args]

/-- Deploy deploy resources of mesh ingress controller; `fuel` is the fuel of the
poll. -/
def Deploy (specs : Specs) (context : StageContext) (fuel : Nat) (log : List Request) :
    Option DeployResult :=
  match BatchDeployResources context.Client.api context.Arguments
      (installFuncs specs context.Arguments) log with
  | (log1, some err) => some { err := some (StageError.install err), log := log1, poll := none }
  | (log1, none) =>
    match checkMeshIngressStatus context.Client.status context.Arguments.MeshNameSpace fuel with
    | none => none
    | some r => some { err := r.err.map StageError.poll, log := log1, poll := some r }

/-- The local `appsV1Resources` of `Clear`. -/
def appsV1Resources : List (String × String) :=
  [("deployments", DefaultMeshIngressControllerName)]

/-- The local `coreV1Resources` of `Clear`. -/
def coreV1Resources : List (String × String) :=
  [("services", DefaultMeshIngressService),
    ("configmap", DefaultMeshIngressConfig)]

/-- Clear will clear all installed resource about mesh ingress panel. -/
def Clear (context : StageContext) (log : List Request) : List Request × Option StageError :=
  let log1 := DeleteResources context.Client.api appsV1Resources context.Arguments.MeshNameSpace
    DeleteAppsV1Resource log
  let log2 := DeleteResources context.Client.api coreV1Resources context.Arguments.MeshNameSpace
    DeleteCoreV1Resource log1
  (log2, none)

end meshingress

/-! ## Running install functions in order -/

/-- The log of requests after the install functions `fs` have all been executed
in order, whatever they returned. -/
def runInOrder {F : Type} (client : KubeAPI) (installFlags : F) (fs : List (InstallFunc F))
    (log : List Request) : List Request :=
  fs.foldl (fun l f => (f client installFlags l).1) log

/-- Every install function of `fs`, executed in order from `log`, returns nil. -/
def succeedInOrder {F : Type} (client : KubeAPI) (installFlags : F) :
    List (InstallFunc F) → List Request → Prop
  | [], _ => True
  | f :: rest, log =>
    (f client installFlags log).2 = none ∧
      succeedInOrder client installFlags rest (f client installFlags log).1

/-! ## Access-control objects of the operator stage -/

/-- The (resource, name) pair under which `Clear` addresses the object of a
deploy request: roles, clusterroles, rolebindings, clusterrolebindings. -/
def rbacResource : Request → Option (String × String)
  | Request.deployRole role _ => some ("roles", role.Meta.Name)
  | Request.deployClusterRole clusterRole => some ("clusterroles", clusterRole.Meta.Name)
  | Request.deployRoleBinding roleBinding _ => some ("rolebindings", roleBinding.Meta.Name)
  | Request.deployClusterRoleBinding clusterRoleBinding =>
    some ("clusterrolebindings", clusterRoleBinding.Meta.Name)
  | _ => none

/-- A cluster API that accepts every request. -/
def acceptAll : KubeAPI :=
  fun _ _ => none

/-- The requests `roleSpec`, `clusterRoleSpec`, `roleBindingSpec` and
`clusterRoleBindingSpec` send, in this order, when the cluster accepts them
all: the access-control objects the operator stage creates. -/
def operator.rbacRequests (installFlags : Install) : List Request :=
  (operator.roleSpec installFlags acceptAll installFlags []).1 ++
  (operator.clusterRoleSpec installFlags acceptAll installFlags []).1 ++
  (operator.roleBindingSpec installFlags acceptAll installFlags []).1 ++
  (operator.clusterRoleBindingSpec installFlags acceptAll installFlags []).1

/-! ## Concrete clusters used in examples -/

/-- A cluster whose third readiness query fails and whose other queries answer
not ready. -/
def failsAtThird : Cluster :=
  fun _ _ n =>
    if n = 3 then { ready := false, err := some "connection refused" }
    else { ready := false, err := none }

/-- A cluster API that rejects the deployment of a Role and accepts every other
request. -/
def rejectRoles : KubeAPI :=
  fun _ req =>
    match req with
    | Request.deployRole _ _ => some "roles is forbidden"
    | _ => none

/-- A cluster API that rejects every request. -/
def rejectAll : KubeAPI :=
  fun _ _ => some "connection refused"

/-- An install function that applies one named resource in the mesh namespace. -/
def applyOne {F : Type} (kind name : String) (meshNamespace : F → String) : F → InstallFunc F :=
  fun _ client installFlags log =>
    send client (Request.applyResource kind name (meshNamespace installFlags)) log

/-- Spec functions for the operator stage in examples. -/
def operator.demoSpecs : operator.Specs :=
  { configMapSpec := applyOne "configmaps" operator.meshOperatorConfigMap Install.MeshNamespace
    serviceSpec := applyOne "services" DefaultMeshOperatorControllerManagerServiceName
      Install.MeshNamespace
    operatorDeploymentSpec := applyOne "deployments" DefaultMeshOperatorName
      Install.MeshNamespace }

/-- Spec functions for the mesh ingress stage in examples. -/
def meshingress.demoSpecs : meshingress.Specs :=
  { configMapSpec := applyOne "configmaps" DefaultMeshIngressConfig InstallArgs.MeshNameSpace
    serviceSpec := applyOne "services" DefaultMeshIngressService InstallArgs.MeshNameSpace
    deploymentSpec := applyOne "deployments" DefaultMeshIngressControllerName
      InstallArgs.MeshNameSpace }

/-- A stage context for the namespace `mesh`. -/
def demoContext (api : KubeAPI) (status : Cluster) : StageContext :=
  { Client := { api := api, status := status }
    Flags := { MeshNamespace := "mesh" }
    Arguments := { MeshNameSpace := "mesh" } }

/-! ## The loop of `File`, field by field -/

theorem fileStep_eq (env : Env) (recursive : Bool) (b : visitorBuilder) (s : String) :
    visitorBuilder.fileStep env recursive b s =
      { b with
        visitors := b.visitors ++ entryVisitors env recursive b.httpGetAttempts s
        errs := b.errs ++ entryErrs env recursive b.httpGetAttempts b.stdinInUse b.visitors s
        singleItemImplied := entrySingle recursive b.singleItemImplied s
        stdinInUse := b.stdinInUse || decide (s = "-") } := by
  unfold visitorBuilder.fileStep entryErrs entryVisitors entrySingle
  by_cases h1 : s = "-"
  · simp only [h1, if_true]
    cases hu : b.stdinInUse <;> simp [visitorBuilder.Stdin, hu]
  · by_cases h2 : urlScheme s
    · simp only [h1, if_false, h2, if_true]
      cases hp : env.parseURL s <;> simp [visitorBuilder.URL, h1]
    · simp only [h1, if_false, h2]
      cases hs : env.stat s with
      | found =>
        cases he : (env.expand s recursive FileExtensions).2 <;>
          cases recursive <;>
          simp [visitorBuilder.path, visitorBuilder.pathStep, hs, h1, he] <;>
          split <;> simp_all
      | notExist =>
        cases recursive <;>
          simp [visitorBuilder.path, visitorBuilder.pathStep, hs, h1] <;>
          split <;> simp_all
      | failed cause =>
        cases recursive <;>
          simp [visitorBuilder.path, visitorBuilder.pathStep, hs, h1] <;>
          split <;> simp_all

/-- The whole loop of `File`, field by field. -/
theorem fileLoop_eq (env : Env) (recursive : Bool) (l : List String) (b : visitorBuilder) :
    l.foldl (visitorBuilder.fileStep env recursive) b =
      { b with
        visitors := b.visitors ++ l.flatMap (entryVisitors env recursive b.httpGetAttempts)
        errs := b.errs ++ loopErrs env recursive b.httpGetAttempts b.stdinInUse b.visitors l
        singleItemImplied := l.foldl (entrySingle recursive) b.singleItemImplied
        stdinInUse := b.stdinInUse || decide ("-" ∈ l) } := by
  induction l generalizing b with
  | nil => simp [loopErrs]
  | cons s l ih =>
    rw [List.foldl_cons, ih, fileStep_eq]
    simp only [loopErrs, List.flatMap_cons, List.append_assoc, List.foldl_cons, List.mem_cons,
      visitorBuilder.mk.injEq, true_and, and_true]
    by_cases h1 : s = "-"
    · subst h1; simp
    · have h2 : ¬ ("-" = s) := fun h => h1 h.symm
      simp [h1, h2]

theorem loopErrs_append (env : Env) (recursive : Bool) (attempts : Int) (l1 l2 : List String)
    (inUse : Bool) (vs : List Visitor) :
    loopErrs env recursive attempts inUse vs (l1 ++ l2) =
      loopErrs env recursive attempts inUse vs l1 ++
        loopErrs env recursive attempts (inUse || decide ("-" ∈ l1))
          (vs ++ l1.flatMap (entryVisitors env recursive attempts)) l2 := by
  induction l1 generalizing inUse vs with
  | nil => simp [loopErrs]
  | cons s l ih =>
    rw [List.cons_append, loopErrs, ih, loopErrs]
    simp only [List.append_assoc, List.flatMap_cons, List.mem_cons]
    by_cases h1 : s = "-"
    · subst h1; simp
    · have h2 : ¬ ("-" = s) := fun h => h1 h.symm
      simp [h1, h2]

/-- What `Do` computes, in terms of `Command` and `File`. -/
theorem Do_builder (env : Env) (b : visitorBuilder) :
    (b.Do env).builder = b.Command.File env := by
  unfold visitorBuilder.Do
  by_cases h : (b.Command.File env).errs.length ≠ 0 <;> simp [h]

/-! ## `strings.Index` against the prefix relation -/

theorem indexFrom_ge (sub : List Char) (l : List Char) (i : Nat) :
    indexFrom sub l i = -1 ∨ (i : Int) ≤ indexFrom sub l i := by
  induction l generalizing i with
  | nil => unfold indexFrom; split <;> simp
  | cons c cs ih =>
    unfold indexFrom
    split
    · exact Or.inr (le_refl _)
    · rcases ih (i + 1) with h | h
      · exact Or.inl h
      · exact Or.inr (by push_cast at h; omega)

/-- The test `strings.Index(s, sub) == 0` of `File` holds exactly when `s`
starts with `sub`. -/
theorem stringsIndex_eq_zero_iff (s sub : String) :
    stringsIndex s sub = 0 ↔ sub.toList <+: s.toList := by
  unfold stringsIndex
  cases hl : s.toList with
  | nil =>
    unfold indexFrom
    by_cases h : sub.toList = [] <;> simp [h]
  | cons c cs =>
    unfold indexFrom
    by_cases h : sub.toList.isPrefixOf (c :: cs) = true
    · simp only [h, if_true]
      exact ⟨fun _ => List.isPrefixOf_iff_prefix.mp h, fun _ => rfl⟩
    · rw [if_neg h]
      constructor
      · intro h0
        rcases indexFrom_ge sub.toList cs (0 + 1) with h1 | h1
        · rw [h1] at h0; exact absurd h0 (by decide)
        · rw [h0] at h1; exact absurd h1 (by decide)
      · intro hp
        exact absurd (List.isPrefixOf_iff_prefix.mpr hp) h

/-! ## Properties of the builder -/

/-- C1: `Do` returns an error exactly when the error list accumulated once
`Command` and `File` have run is non-empty; with an empty list it returns the
accumulated visitor sequence and a nil error, and with a non-empty list the
returned error is the aggregate of the whole accumulated list. -/
theorem C1_Do_fails_iff_errors (env : Env) (b : visitorBuilder) :
    ((b.Do env).err ≠ none ↔ (b.Command.File env).errs ≠ []) ∧
    ((b.Command.File env).errs = [] →
      (b.Do env).visitors = (b.Command.File env).visitors ∧ (b.Do env).err = none) ∧
    ((b.Command.File env).errs ≠ [] →
      (b.Do env).err = some (DoError.aggregate (b.Command.File env).errs)) := by
  unfold visitorBuilder.Do
  by_cases h : (b.Command.File env).errs = []
  · simp [h]
  · have h2 : (b.Command.File env).errs.length ≠ 0 := by
      simpa [List.length_eq_zero] using h
    simp [h, h2]

/-- Instance of C1 on a builder with one missing path and one existing file: the
error returned by `Do` is the aggregate of the accumulated errors. -/
theorem C1_Do_fails_iff_errors_witness :
    ((NewVisitorBuilder.FilenameParam (some ⟨["gone.yaml", "a.yaml"], false⟩)).Command.File
        demoEnv).errs ≠ [] ∧
    ((NewVisitorBuilder.FilenameParam (some ⟨["gone.yaml", "a.yaml"], false⟩)).Do demoEnv).err =
      some (DoError.aggregate [BuildError.pathNotExist "gone.yaml",
        BuildError.noRecognizedFile ["gone.yaml"] FileExtensions]) :=
  ⟨by decide,
   (C1_Do_fails_iff_errors demoEnv
      (NewVisitorBuilder.FilenameParam (some ⟨["gone.yaml", "a.yaml"], false⟩))).2.2 (by decide)⟩

/-! ### Missing paths -/

theorem entryErrs_count_pathNotExist (env : Env) (recursive : Bool) (attempts : Int)
    (inUse : Bool) (vs : List Visitor) (s q : String)
    (h1 : q ≠ "-") (h2 : ¬ urlScheme q) (h3 : env.stat q = StatResult.notExist) :
    (entryErrs env recursive attempts inUse vs s).count (BuildError.pathNotExist q) =
      if s = q then 1 else 0 := by
  unfold entryErrs
  by_cases hs : s = q
  · subst hs
    simp only [h1, if_false, h2, h3, if_true]
    split <;> simp
  · simp only [hs, if_false]
    by_cases c1 : s = "-"
    · simp only [c1, if_true]
      cases inUse <;> simp
    · by_cases c2 : urlScheme s
      · simp only [c1, if_false, c2, if_true]
        cases env.parseURL s <;> simp
      · simp only [c1, if_false, c2]
        cases env.stat s with
        | found =>
          cases (env.expand s recursive FileExtensions).2 <;> dsimp only <;> split_ifs <;> simp
        | notExist =>
          have hs2 : ¬ q = s := fun h => hs h.symm
          dsimp only; split_ifs <;> simp [hs, hs2]
        | failed cause => dsimp only; split_ifs <;> simp

theorem loopErrs_count_pathNotExist (env : Env) (recursive : Bool) (attempts : Int)
    (l : List String) (inUse : Bool) (vs : List Visitor) (q : String)
    (h1 : q ≠ "-") (h2 : ¬ urlScheme q) (h3 : env.stat q = StatResult.notExist) :
    (loopErrs env recursive attempts inUse vs l).count (BuildError.pathNotExist q) =
      l.count q := by
  induction l generalizing inUse vs with
  | nil => simp [loopErrs]
  | cons s l ih =>
    rw [loopErrs, List.count_append, ih,
      entryErrs_count_pathNotExist env recursive attempts inUse vs s q h1 h2 h3,
      List.count_cons]
    by_cases hs : s = q <;> simp [hs, Nat.add_comm]

theorem Command_errs (b : visitorBuilder) : b.Command.errs = b.errs := by
  unfold visitorBuilder.Command; split <;> rfl

theorem Command_filenameOptions (b : visitorBuilder) :
    b.Command.filenameOptions = b.filenameOptions := by
  unfold visitorBuilder.Command; split <;> rfl

theorem Command_httpGetAttempts (b : visitorBuilder) :
    b.Command.httpGetAttempts = b.httpGetAttempts := by
  unfold visitorBuilder.Command; split <;> rfl

theorem Command_stdinInUse (b : visitorBuilder) : b.Command.stdinInUse = b.stdinInUse := by
  unfold visitorBuilder.Command; split <;> rfl

/-- File on a builder that has filename options, field by field. -/
theorem File_eq (env : Env) (b : visitorBuilder) (fo : FilenameOptions)
    (hfo : b.filenameOptions = some fo) :
    b.File env =
      { b with
        visitors := b.visitors ++
          fo.Filenames.flatMap (entryVisitors env fo.Recursive b.httpGetAttempts)
        errs := b.errs ++
          loopErrs env fo.Recursive b.httpGetAttempts b.stdinInUse b.visitors fo.Filenames
        singleItemImplied := fo.Filenames.foldl (entrySingle fo.Recursive) b.singleItemImplied
        stdinInUse := b.stdinInUse || decide ("-" ∈ fo.Filenames) } := by
  simp only [visitorBuilder.File, hfo, fileLoop_eq]

/-- The error list only grows under `File`. -/
theorem File_errs_append (env : Env) (b : visitorBuilder) :
    ∃ es, (b.File env).errs = b.errs ++ es := by
  cases hfo : b.filenameOptions with
  | none => exact ⟨[], by simp [visitorBuilder.File, hfo]⟩
  | some fo => exact ⟨_, by rw [File_eq env b fo hfo]⟩

/-- Do returns no visitor and the aggregate error as soon as the accumulated
error list is non-empty. -/
theorem Do_of_errs_ne_nil (env : Env) (b : visitorBuilder)
    (h : (b.Command.File env).errs ≠ []) :
    (b.Do env).visitors = [] ∧
      (b.Do env).err = some (DoError.aggregate (b.Command.File env).errs) := by
  have h2 : (b.Command.File env).errs.length ≠ 0 := by
    simpa [List.length_eq_zero] using h
  unfold visitorBuilder.Do
  simp [h2]

/-- C2 does not hold as stated: with the filenames `gone.yaml` (missing) and
`a.yaml` (existing), `Do` returns no visitor at all, and its error list holds two
entries for the single missing path; the visitor of `a.yaml` only sits in the
builder. -/
theorem C2_missing_paths_counterexample :
    demoEnv.stat "gone.yaml" = StatResult.notExist ∧
    demoEnv.stat "a.yaml" = StatResult.found ∧
    ((NewVisitorBuilder.FilenameParam (some ⟨["gone.yaml", "a.yaml"], false⟩)).Do demoEnv).visitors
      = [] ∧
    ((NewVisitorBuilder.FilenameParam (some ⟨["gone.yaml", "a.yaml"], false⟩)).Do demoEnv).err =
      some (DoError.aggregate [BuildError.pathNotExist "gone.yaml",
        BuildError.noRecognizedFile ["gone.yaml"] FileExtensions]) ∧
    ((NewVisitorBuilder.FilenameParam
        (some ⟨["gone.yaml", "a.yaml"], false⟩)).Do demoEnv).builder.visitors =
      [Visitor.fileVisitor "a.yaml"] := by
  decide

/-- C2, amended: when the filenames name at least one missing path, `Do` returns
an error (the aggregate of the accumulated list) and no visitor; for every
missing path the accumulated list gains exactly one "does not exist" entry per
occurrence of that path among the filenames; and every file matched under an
existing path still gets its visitor in the visitor sequence of the builder. -/
theorem C2_missing_paths_amended (env : Env) (b : visitorBuilder) (fo : FilenameOptions)
    (p : String) (hfo : b.filenameOptions = some fo) (hp : p ∈ fo.Filenames)
    (h1 : p ≠ "-") (h2 : ¬ urlScheme p) (h3 : env.stat p = StatResult.notExist) :
    (b.Do env).err = some (DoError.aggregate (b.Do env).builder.errs) ∧
    (b.Do env).visitors = [] ∧
    (∀ q, q ≠ "-" → ¬ urlScheme q → env.stat q = StatResult.notExist →
      (b.Do env).builder.errs.count (BuildError.pathNotExist q) =
        b.errs.count (BuildError.pathNotExist q) + fo.Filenames.count q) ∧
    (∀ q, q ∈ fo.Filenames → q ≠ "-" → ¬ urlScheme q → env.stat q = StatResult.found →
      ∀ f, f ∈ (env.expand q fo.Recursive FileExtensions).1 →
        Visitor.fileVisitor f ∈ (b.Do env).builder.visitors) := by
  have hfo2 : b.Command.filenameOptions = some fo := by rw [Command_filenameOptions, hfo]
  have hcount : ∀ q, q ≠ "-" → ¬ urlScheme q → env.stat q = StatResult.notExist →
      (b.Command.File env).errs.count (BuildError.pathNotExist q) =
        b.errs.count (BuildError.pathNotExist q) + fo.Filenames.count q := by
    intro q q1 q2 q3
    rw [File_eq env b.Command fo hfo2]
    simp only [List.count_append, Command_errs]
    rw [loopErrs_count_pathNotExist env fo.Recursive _ fo.Filenames _ _ q q1 q2 q3]
  have hne : (b.Command.File env).errs ≠ [] := by
    intro hnil
    have hc := hcount p h1 h2 h3
    rw [hnil] at hc
    have hpos : 0 < fo.Filenames.count p := List.count_pos_iff.mpr hp
    simp at hc
    omega
  obtain ⟨hv, he⟩ := Do_of_errs_ne_nil env b hne
  rw [Do_builder]
  refine ⟨he, hv, hcount, ?_⟩
  intro q hq q1 q2 q3 f hf
  rw [File_eq env b.Command fo hfo2]
  simp only [List.mem_append, List.mem_flatMap]
  refine Or.inr ⟨q, hq, ?_⟩
  unfold entryVisitors
  simp only [q1, if_false, q2, q3]
  exact List.mem_map.mpr ⟨f, hf, rfl⟩

/-- Instance of the amended C2: filenames `gone.yaml`, `a.yaml`. -/
theorem C2_missing_paths_amended_witness :
    ((NewVisitorBuilder.FilenameParam (some ⟨["gone.yaml", "a.yaml"], false⟩)).Do demoEnv).visitors
      = [] ∧
    Visitor.fileVisitor "a.yaml" ∈
      ((NewVisitorBuilder.FilenameParam
        (some ⟨["gone.yaml", "a.yaml"], false⟩)).Do demoEnv).builder.visitors :=
  have h := C2_missing_paths_amended demoEnv
    (NewVisitorBuilder.FilenameParam (some ⟨["gone.yaml", "a.yaml"], false⟩))
    ⟨["gone.yaml", "a.yaml"], false⟩ "gone.yaml" rfl (by decide) (by decide) (by decide)
    (by decide)
  ⟨h.2.1, h.2.2.2 "a.yaml" (by decide) (by decide) (by decide) (by decide) "a.yaml" (by decide)⟩

/-! ### Stdin is used at most once -/

theorem URL_eq (b : visitorBuilder) (n : Int) (urls : List URL) :
    b.URL n urls =
      { b with visitors := b.visitors ++ urls.map (fun u => Visitor.urlVisitor u n) } := by
  unfold visitorBuilder.URL
  induction urls generalizing b with
  | nil => simp
  | cons u us ih => rw [List.foldl_cons, ih]; simp

theorem entryVisitors_count_stdin (env : Env) (recursive : Bool) (attempts : Int) (s : String) :
    (entryVisitors env recursive attempts s).count Visitor.stdinVisitor =
      if s = "-" then 1 else 0 := by
  unfold entryVisitors
  by_cases c1 : s = "-"
  · simp [c1]
  · by_cases c2 : urlScheme s
    · simp only [c1, if_false, c2, if_true]
      cases env.parseURL s <;> simp
    · simp only [c1, if_false, c2]
      cases env.stat s <;> simp [List.count_eq_zero]

theorem Stdin_eq (b : visitorBuilder) :
    b.Stdin =
      { b with
        visitors := b.visitors ++ [Visitor.stdinVisitor]
        errs := b.errs ++ (if b.stdinInUse then [BuildError.stdinInUse] else [])
        stdinInUse := true } := by
  unfold visitorBuilder.Stdin
  cases h : b.stdinInUse <;> simp

theorem StdinInv_append (b : visitorBuilder) (vs : List Visitor) (es : List BuildError)
    (single inUse : Bool) (hb : StdinInv b) (hvs : vs.count Visitor.stdinVisitor = 0)
    (hu : b.stdinInUse = true → inUse = true) :
    StdinInv { b with visitors := b.visitors ++ vs, errs := b.errs ++ es,
                      singleItemImplied := single, stdinInUse := inUse } := by
  have hmem : Visitor.stdinVisitor ∉ vs := List.count_eq_zero.mp hvs
  constructor
  · intro h
    rcases List.mem_append.mp h with h | h
    · exact hu (hb.1 h)
    · exact absurd h hmem
  · intro h
    simp only [List.count_append, hvs, Nat.add_zero] at h
    exact List.mem_append_left _ (hb.2 h)

theorem StdinInv_Stdin (b : visitorBuilder) (hb : StdinInv b) : StdinInv b.Stdin := by
  rw [Stdin_eq]
  constructor
  · intro _; rfl
  · intro h
    have hc : 0 < b.visitors.count Visitor.stdinVisitor := by
      simp only [List.count_append, List.count_singleton_self] at h
      omega
    have hu : b.stdinInUse = true := hb.1 (List.count_pos_iff.mp hc)
    simp [hu]

theorem StdinInv_fileStep (env : Env) (recursive : Bool) (b : visitorBuilder) (s : String)
    (hb : StdinInv b) : StdinInv (visitorBuilder.fileStep env recursive b s) := by
  by_cases c1 : s = "-"
  · have : visitorBuilder.fileStep env recursive b s = b.Stdin := by
      simp [visitorBuilder.fileStep, c1]
    rw [this]
    exact StdinInv_Stdin b hb
  · rw [fileStep_eq]
    apply StdinInv_append b _ _ _ _ hb
    · rw [entryVisitors_count_stdin]; simp [c1]
    · intro h; simp [h]

theorem StdinInv_fileLoop (env : Env) (recursive : Bool) (l : List String) (b : visitorBuilder)
    (hb : StdinInv b) : StdinInv (l.foldl (visitorBuilder.fileStep env recursive) b) := by
  induction l generalizing b with
  | nil => exact hb
  | cons s l ih => exact ih _ (StdinInv_fileStep env recursive b s hb)

theorem StdinInv_File (env : Env) (b : visitorBuilder) (hb : StdinInv b) :
    StdinInv (b.File env) := by
  unfold visitorBuilder.File
  cases b.filenameOptions with
  | none => exact hb
  | some fo => exact StdinInv_fileLoop env fo.Recursive fo.Filenames b hb

theorem StdinInv_Command (b : visitorBuilder) (hb : StdinInv b) : StdinInv b.Command := by
  unfold visitorBuilder.Command
  split
  · exact hb
  · rename_i co _
    have h := StdinInv_append b [Visitor.commandVisitor co.Kind co.Name] []
      b.singleItemImplied b.stdinInUse hb (by simp) id
    simpa using h

theorem StdinInv_of_Reachable (b : visitorBuilder) (h : Reachable b) : StdinInv b := by
  induction h with
  | new => exact ⟨by simp [NewVisitorBuilder], by simp [NewVisitorBuilder]⟩
  | httpAttemptCount n _ ih => exact ih
  | filenameParam fo _ ih => exact ih
  | commandParam co _ ih => exact ih
  | command _ ih => exact StdinInv_Command _ ih
  | doCall env _ ih =>
    rw [Do_builder]
    exact StdinInv_File env _ (StdinInv_Command _ ih)
  | file env _ ih => exact StdinInv_File env _ ih
  | @url b0 n urls _ ih =>
    rw [URL_eq]
    have h := StdinInv_append b0 (urls.map (fun u => Visitor.urlVisitor u n)) []
      b0.singleItemImplied b0.stdinInUse ih (by simp [List.count_eq_zero]) id
    simpa using h
  | stdin _ ih => exact StdinInv_Stdin _ ih

theorem loopErrs_stdin_inUse (env : Env) (recursive : Bool) (attempts : Int) (l : List String)
    (vs : List Visitor) (h : "-" ∈ l) :
    BuildError.stdinInUse ∈ loopErrs env recursive attempts true vs l := by
  induction l generalizing vs with
  | nil => simp at h
  | cons s l ih =>
    rw [loopErrs]
    by_cases c1 : s = "-"
    · exact List.mem_append_left _ (by simp [entryErrs, c1])
    · have hl : "-" ∈ l := by
        rcases List.mem_cons.mp h with h | h
        · exact absurd h.symm c1
        · exact h
      exact List.mem_append_right _ (by simpa using ih _ hl)

theorem loopErrs_stdin_twice (env : Env) (recursive : Bool) (attempts : Int) (l : List String)
    (inUse : Bool) (vs : List Visitor) (h : 2 ≤ l.count "-") :
    BuildError.stdinInUse ∈ loopErrs env recursive attempts inUse vs l := by
  induction l generalizing inUse vs with
  | nil => simp at h
  | cons s l ih =>
    rw [loopErrs]
    by_cases c1 : s = "-"
    · subst c1
      have hl : "-" ∈ l := by
        apply List.count_pos_iff.mp
        rw [List.count_cons_self] at h
        omega
      apply List.mem_append_right
      simpa using loopErrs_stdin_inUse env recursive attempts l _ hl
    · have hc : 2 ≤ l.count "-" := by
        simpa [List.count_cons, c1] using h
      exact List.mem_append_right _ (ih _ _ hc)

theorem Do_fails_of_mem_errs (env : Env) (b : visitorBuilder) (e : BuildError)
    (h : e ∈ b.errs) : (b.Do env).err ≠ none ∧ (b.Do env).visitors = [] := by
  obtain ⟨es, hes⟩ := File_errs_append env b.Command
  have hne : (b.Command.File env).errs ≠ [] := by
    rw [hes, Command_errs]
    exact fun hnil => by simp [List.append_eq_nil, List.ne_nil_of_mem h] at hnil
  obtain ⟨hv, he⟩ := Do_of_errs_ne_nil env b hne
  exact ⟨by rw [he]; simp, hv⟩

/-- C3 does not hold as stated: after a second `Stdin()` call, and likewise after
`File()` with `"-"` listed twice, the visitor sequence of the builder holds two
stdin visitors. -/
theorem C3_second_stdin_counterexample :
    NewVisitorBuilder.Stdin.Stdin.visitors = [Visitor.stdinVisitor, Visitor.stdinVisitor] ∧
    ((NewVisitorBuilder.FilenameParam (some ⟨["-", "-"], false⟩)).File demoEnv).visitors =
      [Visitor.stdinVisitor, Visitor.stdinVisitor] := by
  decide

/-- C3, amended: a second stdin source, added by calling `Stdin()` twice or by
listing `"-"` twice in the filenames, always records the "Stdin already in used"
error, so that `Do` then fails and returns no visitor; and on every builder
reached through the public methods `Do` never returns two stdin visitors. -/
theorem C3_second_stdin_amended (env : Env) (b : visitorBuilder) :
    BuildError.stdinInUse ∈ b.Stdin.Stdin.errs ∧
    ((b.Stdin.Stdin.Do env).err ≠ none ∧ (b.Stdin.Stdin.Do env).visitors = []) ∧
    (∀ fo, b.filenameOptions = some fo → 2 ≤ fo.Filenames.count "-" →
      BuildError.stdinInUse ∈ (b.File env).errs ∧
        (b.Do env).err ≠ none ∧ (b.Do env).visitors = []) ∧
    (Reachable b → (b.Do env).visitors.count Visitor.stdinVisitor ≤ 1) := by
  have h1 : BuildError.stdinInUse ∈ b.Stdin.Stdin.errs := by
    rw [Stdin_eq b.Stdin, Stdin_eq b]
    simp
  refine ⟨h1, Do_fails_of_mem_errs env _ _ h1, ?_, ?_⟩
  · intro fo hfo hc
    have hfo2 : b.Command.filenameOptions = some fo := by rw [Command_filenameOptions, hfo]
    have hF : BuildError.stdinInUse ∈ (b.File env).errs := by
      rw [File_eq env b fo hfo]
      exact List.mem_append_right _ (loopErrs_stdin_twice env _ _ _ _ _ hc)
    have hD : BuildError.stdinInUse ∈ (b.Command.File env).errs := by
      rw [File_eq env b.Command fo hfo2]
      exact List.mem_append_right _ (loopErrs_stdin_twice env _ _ _ _ _ hc)
    obtain ⟨hv, he⟩ := Do_of_errs_ne_nil env b (List.ne_nil_of_mem hD)
    exact ⟨hF, by rw [he]; simp, hv⟩
  · intro hr
    have hinv : StdinInv (b.Do env).builder := StdinInv_of_Reachable _ (Reachable.doCall env hr)
    rw [Do_builder] at hinv
    by_cases hne : (b.Command.File env).errs = []
    · have hv : (b.Do env).visitors = (b.Command.File env).visitors := by
        unfold visitorBuilder.Do
        simp [hne]
      rw [hv]
      by_contra hcon
      have h2 : 2 ≤ (b.Command.File env).visitors.count Visitor.stdinVisitor := by omega
      have := hinv.2 h2
      rw [hne] at this
      simp at this
    · rw [(Do_of_errs_ne_nil env b hne).1]
      simp

/-- Instance of the amended C3: `"-"` listed twice on a fresh builder. -/
theorem C3_second_stdin_amended_witness :
    BuildError.stdinInUse ∈
      ((NewVisitorBuilder.FilenameParam (some ⟨["-", "-"], false⟩)).File demoEnv).errs ∧
    ((NewVisitorBuilder.FilenameParam (some ⟨["-", "-"], false⟩)).Do demoEnv).err ≠ none ∧
    ((NewVisitorBuilder.FilenameParam (some ⟨["-", "-"], false⟩)).Do demoEnv).visitors = [] ∧
    ((NewVisitorBuilder.FilenameParam (some ⟨["-", "-"], false⟩)).Do
      demoEnv).visitors.count Visitor.stdinVisitor ≤ 1 :=
  have h := C3_second_stdin_amended demoEnv
    (NewVisitorBuilder.FilenameParam (some ⟨["-", "-"], false⟩))
  have h3 := h.2.2.1 ⟨["-", "-"], false⟩ rfl (by decide)
  ⟨h3.1, h3.2.1, h3.2.2, h.2.2.2 (Reachable.filenameParam _ Reachable.new)⟩

/-! ### Routing of a filename -/

theorem urlScheme_iff (s : String) :
    urlScheme s ↔ ("http://".toList <+: s.toList ∨ "https://".toList <+: s.toList) := by
  unfold urlScheme
  rw [stringsIndex_eq_zero_iff, stringsIndex_eq_zero_iff]

/-- C4: a filename other than `"-"` is handled by the URL case of `File` (parse,
then `URL`) exactly when it starts with `http://` or `https://`, and by the
filesystem case (`path`) otherwise; a URL visitor is only ever added for a
filename with such a scheme and a file visitor only for one without. -/
theorem C4_File_routes_by_scheme (env : Env) (recursive : Bool) (b : visitorBuilder)
    (s : String) (hs : s ≠ "-") :
    (("http://".toList <+: s.toList ∨ "https://".toList <+: s.toList) →
      visitorBuilder.fileStep env recursive b s =
        (match env.parseURL s with
          | Except.error cause => { b with errs := b.errs ++ [BuildError.invalidURL s cause] }
          | Except.ok url => b.URL b.httpGetAttempts [url])) ∧
    (¬ ("http://".toList <+: s.toList ∨ "https://".toList <+: s.toList) →
      visitorBuilder.fileStep env recursive b s =
        (if !recursive then { b with singleItemImplied := true } else b).path env recursive [s]) ∧
    (∃ vs, (visitorBuilder.fileStep env recursive b s).visitors = b.visitors ++ vs ∧
      ((∃ u n, Visitor.urlVisitor u n ∈ vs) →
        ("http://".toList <+: s.toList ∨ "https://".toList <+: s.toList)) ∧
      ((∃ f, Visitor.fileVisitor f ∈ vs) →
        ¬ ("http://".toList <+: s.toList ∨ "https://".toList <+: s.toList))) := by
  rw [← urlScheme_iff]
  refine ⟨?_, ?_, ?_⟩
  · intro h
    simp only [visitorBuilder.fileStep, hs, if_false, h, if_true]
  · intro h
    simp only [visitorBuilder.fileStep, hs, if_false, h]
  · refine ⟨entryVisitors env recursive b.httpGetAttempts s, by rw [fileStep_eq], ?_, ?_⟩
    · rintro ⟨u, n, hu⟩
      by_contra hc
      unfold entryVisitors at hu
      simp only [hs, if_false, hc] at hu
      cases hst : env.stat s <;> simp [hst] at hu
    · rintro ⟨f, hf⟩ hc
      unfold entryVisitors at hf
      simp only [hs, if_false, hc, if_true] at hf
      cases hp : env.parseURL s <;> simp [hp] at hf

/-- Instance of C4: `http://x/y.json` goes to `URL`. -/
theorem C4_File_routes_by_scheme_witness :
    "http://x/y.json" ≠ "-" ∧
    ("http://".toList <+: "http://x/y.json".toList ∨
      "https://".toList <+: "http://x/y.json".toList) ∧
    visitorBuilder.fileStep demoEnv false NewVisitorBuilder "http://x/y.json" =
      NewVisitorBuilder.URL 3 [⟨"http://x/y.json"⟩] :=
  ⟨by decide, by decide,
   (C4_File_routes_by_scheme demoEnv false NewVisitorBuilder "http://x/y.json" (by decide)).1
     (by decide)⟩

/-! ### Valid filenames give their visitors in order -/

theorem entryVisitors_valid (env : Env) (recursive : Bool) (attempts : Int) (s : String)
    (h : validEntry env recursive s = true) :
    ∃ v, entryVisitors env recursive attempts s = [v] := by
  unfold validEntry at h
  unfold entryVisitors
  by_cases c1 : s = "-"
  · exact ⟨Visitor.stdinVisitor, by simp [c1]⟩
  · by_cases c2 : urlScheme s
    · simp only [c1, if_false, c2, if_true] at h ⊢
      cases hp : env.parseURL s with
      | error e => simp [hp] at h
      | ok u => exact ⟨_, rfl⟩
    · simp only [c1, if_false, c2] at h ⊢
      cases hst : env.stat s with
      | found =>
        simp only [hst] at h ⊢
        split at h
        · rename_i f hexp
          exact ⟨Visitor.fileVisitor f, by rw [hexp]; rfl⟩
        · exact absurd h (by simp)
      | notExist => simp [hst] at h
      | failed cause => simp [hst] at h

theorem entryErrs_valid (env : Env) (recursive : Bool) (attempts : Int) (inUse : Bool)
    (vs : List Visitor) (s : String) (h : validEntry env recursive s = true)
    (hu : s = "-" → inUse = false) :
    entryErrs env recursive attempts inUse vs s = [] := by
  obtain ⟨v, hv⟩ := entryVisitors_valid env recursive attempts s h
  unfold validEntry at h
  unfold entryErrs
  by_cases c1 : s = "-"
  · simp [c1, hu c1]
  · by_cases c2 : urlScheme s
    · simp only [c1, if_false, c2, if_true] at h ⊢
      cases hp : env.parseURL s with
      | error e => simp [hp] at h
      | ok u => rfl
    · simp only [c1, if_false, c2] at h ⊢
      rw [hv]
      cases hst : env.stat s with
      | found =>
        simp only [hst] at h ⊢
        split at h
        · rename_i f hexp
          simp [hexp]
        · exact absurd h (by simp)
      | notExist => simp [hst] at h
      | failed cause => simp [hst] at h

theorem loopErrs_valid (env : Env) (recursive : Bool) (attempts : Int) (l : List String)
    (inUse : Bool) (vs : List Visitor)
    (hvalid : ∀ s ∈ l, validEntry env recursive s = true)
    (hc : l.count "-" ≤ 1) (hu : inUse = true → "-" ∉ l) :
    loopErrs env recursive attempts inUse vs l = [] := by
  induction l generalizing inUse vs with
  | nil => rfl
  | cons s l ih =>
    rw [loopErrs]
    have h1 : entryErrs env recursive attempts inUse vs s = [] := by
      apply entryErrs_valid env recursive attempts inUse vs s (hvalid s (List.mem_cons_self _ _))
      intro hs
      cases inUse with
      | false => rfl
      | true => exact absurd (by simp [hs]) (hu rfl)
    rw [h1, List.nil_append]
    apply ih
    · intro t ht
      exact hvalid t (List.mem_cons_of_mem _ ht)
    · exact le_trans (List.count_le_count_cons _ _ _) hc
    · intro hin hmem
      by_cases c1 : s = "-"
      · subst c1
        rw [List.count_cons_self] at hc
        have := List.count_pos_iff.mpr hmem
        omega
      · have hin2 : inUse = true := by simpa [c1] using hin
        exact hu hin2 (List.mem_cons_of_mem _ hmem)

theorem forall₂_flatMap_singleton {α β : Type} (f : α → List β) (l : List α)
    (h : ∀ a ∈ l, ∃ v, f a = [v]) :
    List.Forall₂ (fun a v => f a = [v]) l (l.flatMap f) := by
  induction l with
  | nil => exact List.Forall₂.nil
  | cons a l ih =>
    obtain ⟨v, hv⟩ := h a (List.mem_cons_self _ _)
    rw [List.flatMap_cons, hv]
    exact List.Forall₂.cons hv (ih (fun t ht => h t (List.mem_cons_of_mem _ ht)))

/-- C5: on a builder that holds no visitor, no error, no command options and an
unused stdin, when every filename is valid on its own and yields one visitor
and `"-"` is listed at most once, `Do` returns no error and exactly one visitor
per filename, in the order of the filenames. -/
theorem C5_valid_filenames_in_order (env : Env) (b : visitorBuilder) (fo : FilenameOptions)
    (hfo : b.filenameOptions = some fo) (hco : b.commandOptions = none)
    (hvs : b.visitors = []) (hes : b.errs = []) (hin : b.stdinInUse = false)
    (hvalid : ∀ s ∈ fo.Filenames, validEntry env fo.Recursive s = true)
    (hstdin : fo.Filenames.count "-" ≤ 1) :
    (b.Do env).err = none ∧
    (b.Do env).visitors.length = fo.Filenames.length ∧
    List.Forall₂
      (fun s v => entryVisitors env fo.Recursive b.httpGetAttempts s = [v])
      fo.Filenames (b.Do env).visitors := by
  have hcmd : b.Command = b := by simp [visitorBuilder.Command, hco]
  have herr : (b.File env).errs = [] := by
    rw [File_eq env b fo hfo, hes, List.nil_append]
    exact loopErrs_valid env _ _ _ _ _ hvalid hstdin (by simp [hin])
  have hvis : (b.File env).visitors =
      fo.Filenames.flatMap (entryVisitors env fo.Recursive b.httpGetAttempts) := by
    rw [File_eq env b fo hfo, hvs, List.nil_append]
  have hdo : (b.Do env).err = none ∧ (b.Do env).visitors = (b.File env).visitors := by
    unfold visitorBuilder.Do
    simp [hcmd, herr]
  have hf2 := forall₂_flatMap_singleton (entryVisitors env fo.Recursive b.httpGetAttempts)
    fo.Filenames (fun s hs => entryVisitors_valid env _ _ s (hvalid s hs))
  rw [hdo.2, hvis]
  exact ⟨hdo.1, hf2.length_eq.symm, hf2⟩

/-- Instance of C5, the scenario of the specification: the filenames `a.yaml`,
`-`, `http://x/y.json` give a file, a stdin and a URL visitor, in that order. -/
theorem C5_valid_filenames_in_order_witness :
    ((NewVisitorBuilder.FilenameParam
        (some ⟨["a.yaml", "-", "http://x/y.json"], false⟩)).Do demoEnv).err = none ∧
    ((NewVisitorBuilder.FilenameParam
        (some ⟨["a.yaml", "-", "http://x/y.json"], false⟩)).Do demoEnv).visitors.length = 3 ∧
    ((NewVisitorBuilder.FilenameParam
        (some ⟨["a.yaml", "-", "http://x/y.json"], false⟩)).Do demoEnv).visitors =
      [Visitor.fileVisitor "a.yaml", Visitor.stdinVisitor,
        Visitor.urlVisitor ⟨"http://x/y.json"⟩ 3] :=
  have h := C5_valid_filenames_in_order demoEnv
    (NewVisitorBuilder.FilenameParam (some ⟨["a.yaml", "-", "http://x/y.json"], false⟩))
    ⟨["a.yaml", "-", "http://x/y.json"], false⟩ rfl rfl rfl rfl rfl (by decide) (by decide)
  ⟨h.1, h.2.1, by decide⟩

/-! ### Repeated calls -/

theorem Command_eq (b : visitorBuilder) :
    b.Command = { b with visitors := b.visitors ++ commandVisitors b } := by
  unfold visitorBuilder.Command commandVisitors
  cases b with
  | mk vs a es si co fo iu => cases co <;> simp

theorem File_visitors (env : Env) (b : visitorBuilder) :
    (b.File env).visitors = b.visitors ++ fileVisitors env b := by
  unfold fileVisitors
  cases hfo : b.filenameOptions with
  | none => simp [visitorBuilder.File, hfo]
  | some fo => rw [File_eq env b fo hfo]

theorem File_commandOptions (env : Env) (b : visitorBuilder) :
    (b.File env).commandOptions = b.commandOptions := by
  cases hfo : b.filenameOptions with
  | none => simp [visitorBuilder.File, hfo]
  | some fo => rw [File_eq env b fo hfo]

theorem File_filenameOptions (env : Env) (b : visitorBuilder) :
    (b.File env).filenameOptions = b.filenameOptions := by
  cases hfo : b.filenameOptions with
  | none => simp [visitorBuilder.File, hfo]
  | some fo => rw [File_eq env b fo hfo]; exact hfo

theorem File_httpGetAttempts (env : Env) (b : visitorBuilder) :
    (b.File env).httpGetAttempts = b.httpGetAttempts := by
  cases hfo : b.filenameOptions with
  | none => simp [visitorBuilder.File, hfo]
  | some fo => rw [File_eq env b fo hfo]

/-- The visitor sequence `Do` leaves in the builder. -/
theorem Do_builder_visitors (env : Env) (b : visitorBuilder) :
    (b.Do env).builder.visitors = b.visitors ++ commandVisitors b ++ fileVisitors env b := by
  rw [Do_builder, File_visitors, Command_eq]
  rfl

/-- C6 does not hold as stated: with command options set, `Do` alone returns one
command visitor and `Do` after `Command` returns two; with the filename
`a.yaml`, `Do` alone returns one file visitor and `Do` after `File` returns
two. -/
theorem C6_Do_not_idempotent_counterexample :
    ((NewVisitorBuilder.CommandParam (some ⟨"service", "svc-a"⟩)).Do demoEnv).visitors =
      [Visitor.commandVisitor "service" "svc-a"] ∧
    ((NewVisitorBuilder.CommandParam (some ⟨"service", "svc-a"⟩)).Command.Do demoEnv).visitors =
      [Visitor.commandVisitor "service" "svc-a", Visitor.commandVisitor "service" "svc-a"] ∧
    ((NewVisitorBuilder.FilenameParam (some ⟨["a.yaml"], false⟩)).Do demoEnv).visitors =
      [Visitor.fileVisitor "a.yaml"] ∧
    (((NewVisitorBuilder.FilenameParam (some ⟨["a.yaml"], false⟩)).File demoEnv).Do
        demoEnv).visitors =
      [Visitor.fileVisitor "a.yaml", Visitor.fileVisitor "a.yaml"] := by
  decide

/-- C6, amended: `Do` runs `Command` and then `File` again whatever was invoked
before. After an earlier `Command` (or `File`) the visitors of that call are in
the sequence a second time; `Do` gives the same result as `Do` alone when the
call made before it had no options to act on. -/
theorem C6_Do_reruns_Command_File_amended (env : Env) (b : visitorBuilder) :
    (b.Do env).builder.visitors = b.visitors ++ commandVisitors b ++ fileVisitors env b ∧
    (b.Command.Do env).builder.visitors =
      b.visitors ++ commandVisitors b ++ commandVisitors b ++ fileVisitors env b ∧
    ((b.File env).Do env).builder.visitors =
      b.visitors ++ fileVisitors env b ++ commandVisitors b ++ fileVisitors env b ∧
    (b.commandOptions = none → b.Command.Do env = b.Do env) ∧
    (b.filenameOptions = none → (b.File env).Do env = b.Do env) := by
  refine ⟨Do_builder_visitors env b, ?_, ?_, ?_, ?_⟩
  · rw [Do_builder_visitors, Command_eq]
    rfl
  · rw [Do_builder_visitors, File_visitors]
    unfold commandVisitors fileVisitors
    rw [File_commandOptions, File_filenameOptions, File_httpGetAttempts]
  · intro h
    have : b.Command = b := by simp [visitorBuilder.Command, h]
    rw [this]
  · intro h
    have : b.File env = b := by simp [visitorBuilder.File, h]
    rw [this]

/-- Instance of the amended C6: without command options, `Do` after `Command`
is `Do` alone. -/
theorem C6_Do_reruns_Command_File_amended_witness :
    (NewVisitorBuilder.FilenameParam (some ⟨["a.yaml"], false⟩)).commandOptions = none ∧
    (NewVisitorBuilder.FilenameParam (some ⟨["a.yaml"], false⟩)).Command.Do demoEnv =
      (NewVisitorBuilder.FilenameParam (some ⟨["a.yaml"], false⟩)).Do demoEnv :=
  ⟨rfl, (C6_Do_reruns_Command_File_amended demoEnv
      (NewVisitorBuilder.FilenameParam (some ⟨["a.yaml"], false⟩))).2.2.2.1 rfl⟩

/-! ### A malformed URL does not stop the loop -/

theorem urlScheme_ne_stdin (s : String) (h : urlScheme s) : s ≠ "-" := by
  intro hs
  subst hs
  revert h
  decide

/-- C7: a filename with an http or https scheme that does not parse adds one
error and no visitor and changes nothing else; the filenames after it are still
processed and contribute the visitors and errors they contribute when the
malformed entry is absent. -/
theorem C7_malformed_URL_accumulates (env : Env) (b : visitorBuilder) (recursive : Bool)
    (pre post : List String) (bad cause : String)
    (hbad : "http://".toList <+: bad.toList ∨ "https://".toList <+: bad.toList)
    (hparse : env.parseURL bad = Except.error cause) :
    visitorBuilder.fileStep env recursive b bad =
      { b with errs := b.errs ++ [BuildError.invalidURL bad cause] } ∧
    ((b.FilenameParam (some ⟨pre ++ bad :: post, recursive⟩)).File env).visitors =
      ((b.FilenameParam (some ⟨pre ++ post, recursive⟩)).File env).visitors ∧
    ((b.FilenameParam (some ⟨pre ++ bad :: post, recursive⟩)).File env).stdinInUse =
      ((b.FilenameParam (some ⟨pre ++ post, recursive⟩)).File env).stdinInUse ∧
    (∃ es,
      ((b.FilenameParam (some ⟨pre ++ post, recursive⟩)).File env).errs =
        ((b.FilenameParam (some ⟨pre, recursive⟩)).File env).errs ++ es ∧
      ((b.FilenameParam (some ⟨pre ++ bad :: post, recursive⟩)).File env).errs =
        ((b.FilenameParam (some ⟨pre, recursive⟩)).File env).errs ++
          BuildError.invalidURL bad cause :: es) := by
  have hsch : urlScheme bad := (urlScheme_iff bad).mpr hbad
  have hne : bad ≠ "-" := urlScheme_ne_stdin bad hsch
  have hne2 : ¬ ("-" = bad) := fun h => hne h.symm
  have hv : ∀ a, entryVisitors env recursive a bad = [] := by
    intro a
    unfold entryVisitors
    simp only [hne, if_false, hsch, if_true, hparse]
  have he : ∀ a u vs, entryErrs env recursive a u vs bad = [BuildError.invalidURL bad cause] := by
    intro a u vs
    unfold entryErrs
    simp only [hne, if_false, hsch, if_true, hparse]
  refine ⟨?_, ?_, ?_, ?_⟩
  · simp only [visitorBuilder.fileStep, hne, if_false, hsch, if_true, hparse]
  · rw [File_eq env _ ⟨pre ++ bad :: post, recursive⟩ rfl,
      File_eq env _ ⟨pre ++ post, recursive⟩ rfl]
    simp [List.flatMap_append, List.flatMap_cons, hv, visitorBuilder.FilenameParam]
  · rw [File_eq env _ ⟨pre ++ bad :: post, recursive⟩ rfl,
      File_eq env _ ⟨pre ++ post, recursive⟩ rfl]
    simp [hne2, visitorBuilder.FilenameParam]
  · refine ⟨loopErrs env recursive b.httpGetAttempts (b.stdinInUse || decide ("-" ∈ pre))
      (b.visitors ++ pre.flatMap (entryVisitors env recursive b.httpGetAttempts)) post, ?_, ?_⟩
    · rw [File_eq env _ ⟨pre ++ post, recursive⟩ rfl, File_eq env _ ⟨pre, recursive⟩ rfl]
      simp only [visitorBuilder.FilenameParam]
      rw [loopErrs_append, List.append_assoc]
    · rw [File_eq env _ ⟨pre ++ bad :: post, recursive⟩ rfl, File_eq env _ ⟨pre, recursive⟩ rfl]
      simp only [visitorBuilder.FilenameParam]
      rw [loopErrs_append, loopErrs, he, hv, List.append_nil, List.append_assoc]
      simp [hne]

/-- Instance of C7: the malformed `http://bad host` between `a.yaml` and `-`. -/
theorem C7_malformed_URL_accumulates_witness :
    demoEnv.parseURL "http://bad host" = Except.error "invalid character in host name" ∧
    ((NewVisitorBuilder.FilenameParam
        (some ⟨["a.yaml"] ++ "http://bad host" :: ["-"], false⟩)).File demoEnv).visitors =
      ((NewVisitorBuilder.FilenameParam (some ⟨["a.yaml"] ++ ["-"], false⟩)).File
        demoEnv).visitors :=
  ⟨rfl,
   (C7_malformed_URL_accumulates demoEnv NewVisitorBuilder false ["a.yaml"] ["-"]
      "http://bad host" "invalid character in host name" (by decide) rfl).2.1⟩

/-! ### Paths that expand to nothing -/

theorem pathLoop_eq (env : Env) (recursive : Bool) (paths : List String) (b : visitorBuilder) :
    paths.foldl (visitorBuilder.pathStep env recursive) b =
      { b with
        visitors := b.visitors ++ expandedVisitors env recursive paths
        errs := b.errs ++ expandErrs env recursive paths } := by
  induction paths generalizing b with
  | nil => simp [expandedVisitors, expandErrs]
  | cons p ps ih =>
    rw [List.foldl_cons, ih]
    unfold visitorBuilder.pathStep expandedVisitors expandErrs
    cases hst : env.stat p with
    | found =>
      cases he : (env.expand p recursive FileExtensions).2 <;>
        simp [List.flatMap_cons, hst, he]
    | notExist => simp [List.flatMap_cons, hst]
    | failed cause => simp [List.flatMap_cons, hst]

theorem loopErrs_nil_visitors_ne_nil (env : Env) (recursive : Bool) (attempts : Int)
    (l : List String) (inUse : Bool) (vs : List Visitor)
    (h : loopErrs env recursive attempts inUse vs l = [])
    (hp : ∃ s ∈ l, s ≠ "-" ∧ ¬ urlScheme s) :
    vs ++ l.flatMap (entryVisitors env recursive attempts) ≠ [] := by
  induction l generalizing inUse vs with
  | nil => obtain ⟨s, hs, _⟩ := hp; simp at hs
  | cons t l ih =>
    rw [loopErrs, List.append_eq_nil] at h
    obtain ⟨h1, h2⟩ := h
    rw [List.flatMap_cons, ← List.append_assoc]
    by_cases ht : t ≠ "-" ∧ ¬ urlScheme t
    · have hne : vs ++ entryVisitors env recursive attempts t ≠ [] := by
        intro hnil
        unfold entryErrs at h1
        simp only [ht.1, if_false, ht.2, List.append_eq_nil] at h1
        have hn := List.append_eq_nil.mp hnil
        simp [hn.1, hn.2] at h1
      intro hnil
      exact hne (List.append_eq_nil.mp hnil).1
    · obtain ⟨s, hs, hs2⟩ := hp
      rcases List.mem_cons.mp hs with hst | hsl
      · subst hst; exact absurd hs2 ht
      · exact ih _ _ h2 ⟨s, hsl, hs2⟩

/-- C8 does not hold as stated: once the builder holds a visitor, a path whose
expansion yields nothing adds no error. With the filenames `-` and `emptydir`
(an existing directory without any recognised file) `Do` succeeds and returns
the stdin visitor only. -/
theorem C8_no_visitor_error_counterexample :
    demoEnv.stat "emptydir" = StatResult.found ∧
    demoEnv.expand "emptydir" true FileExtensions = ([], none) ∧
    (NewVisitorBuilder.Stdin.path demoEnv true ["emptydir"]).errs = [] ∧
    ((NewVisitorBuilder.FilenameParam (some ⟨["-", "emptydir"], true⟩)).Do demoEnv).err = none ∧
    ((NewVisitorBuilder.FilenameParam (some ⟨["-", "emptydir"], true⟩)).Do demoEnv).visitors =
      [Visitor.stdinVisitor] := by
  decide

/-- C8, amended: `path` appends the visitors its paths expand to; when the
builder held no visitor before and the expansion yields none, it appends the
"recognized file extensions are ..." error after the errors of the expansion,
and `Do` then fails. As a consequence, whenever the filenames name a
filesystem path, `Do` never succeeds with an empty visitor sequence. -/
theorem C8_no_visitor_error_amended (env : Env) (recursive : Bool) (b : visitorBuilder)
    (paths : List String) :
    (b.path env recursive paths).visitors =
      b.visitors ++ expandedVisitors env recursive paths ∧
    (b.visitors = [] → expandedVisitors env recursive paths = [] →
      (b.path env recursive paths).errs =
          b.errs ++ expandErrs env recursive paths ++
            [BuildError.noRecognizedFile paths FileExtensions] ∧
        ((b.path env recursive paths).Do env).err ≠ none) ∧
    (∀ fo, b.filenameOptions = some fo →
      (∃ s ∈ fo.Filenames, s ≠ "-" ∧ ¬ urlScheme s) →
      (b.Do env).err = none → (b.Do env).visitors ≠ []) := by
  refine ⟨?_, ?_, ?_⟩
  · unfold visitorBuilder.path
    rw [pathLoop_eq]
    dsimp only
    split <;> rfl
  · intro hb hx
    have herrs : (b.path env recursive paths).errs =
        b.errs ++ expandErrs env recursive paths ++
          [BuildError.noRecognizedFile paths FileExtensions] := by
      unfold visitorBuilder.path
      rw [pathLoop_eq]
      simp [hb, hx]
    refine ⟨herrs, ?_⟩
    exact (Do_fails_of_mem_errs env _ (BuildError.noRecognizedFile paths FileExtensions)
      (by rw [herrs]; simp)).1
  · intro fo hfo hp herr
    have hfo2 : b.Command.filenameOptions = some fo := by rw [Command_filenameOptions, hfo]
    have hnil : (b.Command.File env).errs = [] := by
      by_contra hne
      rw [(Do_of_errs_ne_nil env b hne).2] at herr
      simp at herr
    have hv : (b.Do env).visitors = (b.Command.File env).visitors := by
      unfold visitorBuilder.Do
      simp [hnil]
    rw [hv, File_eq env b.Command fo hfo2]
    rw [File_eq env b.Command fo hfo2] at hnil
    exact loopErrs_nil_visitors_ne_nil env _ _ _ _ _ (List.append_eq_nil.mp hnil).2 hp

/-- Instance of the amended C8: `emptydir` alone on a fresh builder. -/
theorem C8_no_visitor_error_amended_witness :
    NewVisitorBuilder.visitors = [] ∧
    expandedVisitors demoEnv true ["emptydir"] = [] ∧
    (NewVisitorBuilder.path demoEnv true ["emptydir"]).errs =
      [BuildError.noRecognizedFile ["emptydir"] FileExtensions] ∧
    ((NewVisitorBuilder.path demoEnv true ["emptydir"]).Do demoEnv).err ≠ none :=
  have h := (C8_no_visitor_error_amended demoEnv true NewVisitorBuilder ["emptydir"]).2.1
    rfl (by decide)
  ⟨rfl, by decide, h.1, h.2⟩

/-! ## Properties of the readiness polls -/

/-- The loop succeeds at the first ready answer, after as many queries as its
attempt number. -/
theorem pollLoop_ready (msg : String) (query : Nat → StatusAnswer) (k : Nat) (hk : k ≤ 600)
    (hwait : ∀ j, 1 ≤ j → j < k → query j = { ready := false, err := none })
    (hready : (query k).ready = true) :
    ∀ fuel i, i < k → k - i ≤ fuel →
      pollLoop msg query fuel i i i = some { err := none, queries := k, sleeps := k } := by
  intro fuel
  induction fuel with
  | zero => intro i hi hf; omega
  | succ fuel ih =>
    intro i hi hf
    unfold pollLoop
    have h600 : ¬ (i + 1 > 600) := by omega
    simp only [h600, if_false]
    by_cases hik : i + 1 = k
    · rw [hik, hready]
      simp
    · have hq := hwait (i + 1) (by omega) (by omega)
      rw [hq]
      simp only [Bool.false_eq_true, if_false]
      exact ih (i + 1) (by omega) (by omega)

/-- With enough fuel the loop always returns, after at most 600 queries. -/
theorem pollLoop_total (msg : String) (query : Nat → StatusAnswer) :
    ∀ fuel i, i ≤ 600 → 601 - i ≤ fuel →
      ∃ r, pollLoop msg query fuel i i i = some r ∧ r.queries ≤ 600 ∧ r.sleeps ≤ 601 := by
  intro fuel
  induction fuel with
  | zero => intro i hi hf; omega
  | succ fuel ih =>
    intro i hi hf
    unfold pollLoop
    by_cases h600 : i + 1 > 600
    · simp only [h600, if_true]
      exact ⟨_, rfl, by simp; omega, by simp; omega⟩
    · simp only [h600, if_false]
      cases hr : (query (i + 1)).ready with
      | true =>
        exact ⟨{ err := none, queries := i + 1, sleeps := i + 1 }, by simp,
          by simp; omega, by simp; omega⟩
      | false =>
        simp only [Bool.false_eq_true, if_false]
        cases he : (query (i + 1)).err with
        | some e => exact ⟨_, rfl, by simp; omega, by simp; omega⟩
        | none => exact ih (i + 1) (by omega) (by omega)

/-- Without any ready answer and any query error the loop gives up after the
600th query. -/
theorem pollLoop_never (msg : String) (query : Nat → StatusAnswer)
    (hnever : ∀ j, 1 ≤ j → j ≤ 600 → query j = { ready := false, err := none }) :
    ∀ fuel i, i ≤ 600 → 601 - i ≤ fuel →
      pollLoop msg query fuel i i i =
        some { err := some (PollError.deployFailed msg), queries := 600, sleeps := 601 } := by
  intro fuel
  induction fuel with
  | zero => intro i hi hf; omega
  | succ fuel ih =>
    intro i hi hf
    unfold pollLoop
    by_cases h600 : i + 1 > 600
    · have : i = 600 := by omega
      subst this
      simp
    · simp only [h600, if_false]
      rw [hnever (i + 1) (by omega) (by omega)]
      simp only [Bool.false_eq_true, if_false]
      exact ih (i + 1) (by omega) (by omega)

/-- C9: when the readiness query answers not ready, without error, on the
attempts `1 .. k-1` and ready on attempt `k`, for `1 ≤ k ≤ 600`, both polls
return success after exactly `k` queries, whatever fuel of at least `k`
iterations they are given. -/
theorem C9_poll_succeeds_at_first_ready (cluster : Cluster) (ns : String) (k : Nat)
    (hk1 : 1 ≤ k) (hk : k ≤ 600) :
    ((∀ j, 1 ≤ j → j < k →
        cluster ns DefaultMeshOperatorName j = { ready := false, err := none }) →
      (cluster ns DefaultMeshOperatorName k).ready = true →
      ∀ fuel, k ≤ fuel →
        checkOperatorStatus cluster ns fuel = some { err := none, queries := k, sleeps := k }) ∧
    ((∀ j, 1 ≤ j → j < k →
        cluster ns DefaultMeshIngressControllerName j = { ready := false, err := none }) →
      (cluster ns DefaultMeshIngressControllerName k).ready = true →
      ∀ fuel, k ≤ fuel →
        checkMeshIngressStatus cluster ns fuel =
          some { err := none, queries := k, sleeps := k }) := by
  constructor
  · intro hwait hready fuel hf
    exact pollLoop_ready _ _ k hk hwait hready fuel 0 (by omega) (by omega)
  · intro hwait hready fuel hf
    exact pollLoop_ready _ _ k hk hwait hready fuel 0 (by omega) (by omega)

/-- Instance of C9: ready at the fifth attempt, five queries. -/
theorem C9_poll_succeeds_at_first_ready_witness :
    checkOperatorStatus readyAtFifth "mesh" 601 = some { err := none, queries := 5, sleeps := 5 } ∧
    checkMeshIngressStatus readyAtFifth "mesh" 601 =
      some { err := none, queries := 5, sleeps := 5 } :=
  have h := C9_poll_succeeds_at_first_ready readyAtFifth "mesh" 5 (by decide) (by decide)
  ⟨h.1 (fun j _ h2 => by unfold readyAtFifth; rw [if_neg (by omega)]) rfl 601 (by decide),
   h.2 (fun j _ h2 => by unfold readyAtFifth; rw [if_neg (by omega)]) rfl 601 (by decide)⟩

/-- C10: both polls terminate whatever the readiness query answers, with 601
iterations of fuel or more, and never make more than 600 queries; when the
query never reports ready and never fails, they return their "deploy failed
... not ready" error after exactly 600 queries. -/
theorem C10_poll_terminates_within_600 (cluster : Cluster) (ns : String) :
    (∀ fuel, 601 ≤ fuel →
      (∃ r, checkOperatorStatus cluster ns fuel = some r ∧ r.queries ≤ 600) ∧
      (∃ r, checkMeshIngressStatus cluster ns fuel = some r ∧ r.queries ≤ 600)) ∧
    ((∀ j, 1 ≤ j → j ≤ 600 →
        cluster ns DefaultMeshOperatorName j = { ready := false, err := none }) →
      ∀ fuel, 601 ≤ fuel →
        checkOperatorStatus cluster ns fuel =
          some { err := some (PollError.deployFailed operatorNotReady),
                 queries := 600, sleeps := 601 }) ∧
    ((∀ j, 1 ≤ j → j ≤ 600 →
        cluster ns DefaultMeshIngressControllerName j = { ready := false, err := none }) →
      ∀ fuel, 601 ≤ fuel →
        checkMeshIngressStatus cluster ns fuel =
          some { err := some (PollError.deployFailed meshIngressNotReady),
                 queries := 600, sleeps := 601 }) := by
  refine ⟨?_, ?_, ?_⟩
  · intro fuel hf
    constructor
    · obtain ⟨r, hr, hq, _⟩ := pollLoop_total operatorNotReady
        (cluster ns DefaultMeshOperatorName) fuel 0 (by omega) (by omega)
      exact ⟨r, hr, hq⟩
    · obtain ⟨r, hr, hq, _⟩ := pollLoop_total meshIngressNotReady
        (cluster ns DefaultMeshIngressControllerName) fuel 0 (by omega) (by omega)
      exact ⟨r, hr, hq⟩
  · intro hnever fuel hf
    exact pollLoop_never _ _ hnever fuel 0 (by omega) (by omega)
  · intro hnever fuel hf
    exact pollLoop_never _ _ hnever fuel 0 (by omega) (by omega)

/-- Instance of C10: a cluster that is never ready, 600 queries, then the error. -/
theorem C10_poll_terminates_within_600_witness :
    checkOperatorStatus neverReady "mesh" 601 =
      some { err := some (PollError.deployFailed operatorNotReady),
             queries := 600, sleeps := 601 } ∧
    checkMeshIngressStatus neverReady "mesh" 601 =
      some { err := some (PollError.deployFailed meshIngressNotReady),
             queries := 600, sleeps := 601 } :=
  have h := C10_poll_terminates_within_600 neverReady "mesh"
  ⟨h.2.1 (fun _ _ _ => rfl) 601 (by decide), h.2.2 (fun _ _ _ => rfl) 601 (by decide)⟩

/-- The loop returns the error of the first query that fails, after as many
queries as its attempt number. -/
theorem pollLoop_error (msg : String) (query : Nat → StatusAnswer) (j : Nat) (hj : j ≤ 600)
    (e : String)
    (hwait : ∀ n, 1 ≤ n → n < j → query n = { ready := false, err := none })
    (hfail : query j = { ready := false, err := some e }) :
    ∀ fuel i, i < j → j - i ≤ fuel →
      pollLoop msg query fuel i i i =
        some { err := some (PollError.queryError e), queries := j, sleeps := j } := by
  intro fuel
  induction fuel with
  | zero => intro i hi hf; omega
  | succ fuel ih =>
    intro i hi hf
    unfold pollLoop
    have h600 : ¬ (i + 1 > 600) := by omega
    simp only [h600, if_false]
    by_cases hij : i + 1 = j
    · rw [hij, hfail]
      simp
    · have hq := hwait (i + 1) (by omega) (by omega)
      rw [hq]
      simp only [Bool.false_eq_true, if_false]
      exact ih (i + 1) (by omega) (by omega)

/-- C11: when the readiness query answers not ready, without error, on the
attempts `1 .. j-1` and not ready with the error `e` on attempt `j`, for
`1 ≤ j ≤ 600`, both polls return `e` after exactly `j` queries, whatever fuel
of at least `j` iterations they are given. -/
theorem C11_poll_stops_at_query_error (cluster : Cluster) (ns : String) (j : Nat) (e : String)
    (hj1 : 1 ≤ j) (hj : j ≤ 600) :
    ((∀ n, 1 ≤ n → n < j →
        cluster ns DefaultMeshOperatorName n = { ready := false, err := none }) →
      cluster ns DefaultMeshOperatorName j = { ready := false, err := some e } →
      ∀ fuel, j ≤ fuel →
        checkOperatorStatus cluster ns fuel =
          some { err := some (PollError.queryError e), queries := j, sleeps := j }) ∧
    ((∀ n, 1 ≤ n → n < j →
        cluster ns DefaultMeshIngressControllerName n = { ready := false, err := none }) →
      cluster ns DefaultMeshIngressControllerName j = { ready := false, err := some e } →
      ∀ fuel, j ≤ fuel →
        checkMeshIngressStatus cluster ns fuel =
          some { err := some (PollError.queryError e), queries := j, sleeps := j }) := by
  constructor
  · intro hwait hfail fuel hf
    exact pollLoop_error _ _ j hj e hwait hfail fuel 0 (by omega) (by omega)
  · intro hwait hfail fuel hf
    exact pollLoop_error _ _ j hj e hwait hfail fuel 0 (by omega) (by omega)

/-- Instance of C11: the third query fails, three queries are made. -/
theorem C11_poll_stops_at_query_error_witness :
    checkOperatorStatus failsAtThird "mesh" 601 =
      some { err := some (PollError.queryError "connection refused"),
             queries := 3, sleeps := 3 } ∧
    checkMeshIngressStatus failsAtThird "mesh" 601 =
      some { err := some (PollError.queryError "connection refused"),
             queries := 3, sleeps := 3 } :=
  have h := C11_poll_stops_at_query_error failsAtThird "mesh" 3 "connection refused"
    (by decide) (by decide)
  ⟨h.1 (fun n _ h2 => by unfold failsAtThird; rw [if_neg (by omega)]) rfl 601 (by decide),
   h.2 (fun n _ h2 => by unfold failsAtThird; rw [if_neg (by omega)]) rfl 601 (by decide)⟩

/-! ## Properties of the stages -/

/-- With 601 iterations of fuel or more both polls return a result. -/
theorem poll_returns (cluster : Cluster) (ns : String) (fuel : Nat) (hf : 601 ≤ fuel) :
    (∃ r, checkOperatorStatus cluster ns fuel = some r) ∧
    (∃ r, checkMeshIngressStatus cluster ns fuel = some r) := by
  constructor
  · obtain ⟨r, hr, _⟩ := pollLoop_total operatorNotReady
      (cluster ns DefaultMeshOperatorName) fuel 0 (by omega) (by omega)
    exact ⟨r, hr⟩
  · obtain ⟨r, hr, _⟩ := pollLoop_total meshIngressNotReady
      (cluster ns DefaultMeshIngressControllerName) fuel 0 (by omega) (by omega)
    exact ⟨r, hr⟩

/-- C12: in both stages, when `BatchDeployResources` returns an error `e`,
`Deploy` returns `e` and runs no readiness poll; when it returns nil, `Deploy`
runs the poll of the stage's deployment in the mesh namespace and returns the
result of that poll; with 601 iterations of fuel or more `Deploy` returns. -/
theorem C12_Deploy_batch_then_poll (ospecs : operator.Specs) (ispecs : meshingress.Specs)
    (context : StageContext) (fuel : Nat) (log : List Request) :
    (∀ log1 e,
      BatchDeployResources context.Client.api context.Flags
          (operator.installFuncs ospecs context.Flags) log = (log1, some e) →
        operator.Deploy ospecs context fuel log =
          some { err := some (StageError.install e), log := log1, poll := none }) ∧
    (∀ log1,
      BatchDeployResources context.Client.api context.Flags
          (operator.installFuncs ospecs context.Flags) log = (log1, none) →
        operator.Deploy ospecs context fuel log =
          (checkOperatorStatus context.Client.status context.Flags.MeshNamespace fuel).map
            (fun r => { err := r.err.map StageError.poll, log := log1, poll := some r })) ∧
    (∀ log1 e,
      BatchDeployResources context.Client.api context.Arguments
          (meshingress.installFuncs ispecs context.Arguments) log = (log1, some e) →
        meshingress.Deploy ispecs context fuel log =
          some { err := some (StageError.install e), log := log1, poll := none }) ∧
    (∀ log1,
      BatchDeployResources context.Client.api context.Arguments
          (meshingress.installFuncs ispecs context.Arguments) log = (log1, none) →
        meshingress.Deploy ispecs context fuel log =
          (checkMeshIngressStatus context.Client.status
              context.Arguments.MeshNameSpace fuel).map
            (fun r => { err := r.err.map StageError.poll, log := log1, poll := some r })) ∧
    (601 ≤ fuel →
      (∃ r, operator.Deploy ospecs context fuel log = some r) ∧
      (∃ r, meshingress.Deploy ispecs context fuel log = some r)) := by
  refine ⟨?_, ?_, ?_, ?_, ?_⟩
  · intro log1 e h
    unfold operator.Deploy
    rw [h]
  · intro log1 h
    unfold operator.Deploy
    rw [h]
    cases checkOperatorStatus context.Client.status context.Flags.MeshNamespace fuel <;> rfl
  · intro log1 e h
    unfold meshingress.Deploy
    rw [h]
  · intro log1 h
    unfold meshingress.Deploy
    rw [h]
    cases checkMeshIngressStatus context.Client.status context.Arguments.MeshNameSpace fuel <;>
      rfl
  · intro hf
    constructor
    · obtain ⟨r, hr⟩ := (poll_returns context.Client.status context.Flags.MeshNamespace fuel hf).1
      unfold operator.Deploy
      rcases hb : BatchDeployResources context.Client.api context.Flags
          (operator.installFuncs ospecs context.Flags) log with ⟨log1, _ | e⟩
      · exact ⟨{ err := r.err.map StageError.poll, log := log1, poll := some r },
          by simp only [hr]⟩
      · exact ⟨_, rfl⟩
    · obtain ⟨r, hr⟩ :=
        (poll_returns context.Client.status context.Arguments.MeshNameSpace fuel hf).2
      unfold meshingress.Deploy
      rcases hb : BatchDeployResources context.Client.api context.Arguments
          (meshingress.installFuncs ispecs context.Arguments) log with ⟨log1, _ | e⟩
      · exact ⟨{ err := r.err.map StageError.poll, log := log1, poll := some r },
          by simp only [hr]⟩
      · exact ⟨_, rfl⟩

/-- Instance of C12: the cluster rejects every request, the first install
function fails and `Deploy` returns its error without any poll. -/
theorem C12_Deploy_batch_then_poll_witness :
    operator.Deploy operator.demoSpecs (demoContext rejectAll readyAtFifth) 601 [] =
      some { err := some (StageError.install "connection refused"),
             log := [Request.applyResource "configmaps" "easemesh-operator-config" "mesh"],
             poll := none } ∧
    meshingress.Deploy meshingress.demoSpecs (demoContext acceptAll readyAtFifth) 601 [] =
      (checkMeshIngressStatus readyAtFifth "mesh" 601).map
        (fun r => { err := r.err.map StageError.poll,
                    log := [Request.applyResource "configmaps" "easemesh-ingress-config" "mesh",
                      Request.applyResource "services" "easemesh-ingress-service" "mesh",
                      Request.applyResource "deployments" "easemesh-ingress-easegress" "mesh"],
                    poll := some r }) :=
  ⟨(C12_Deploy_batch_then_poll operator.demoSpecs meshingress.demoSpecs
      (demoContext rejectAll readyAtFifth) 601 []).1 _ _ rfl,
   (C12_Deploy_batch_then_poll operator.demoSpecs meshingress.demoSpecs
      (demoContext acceptAll readyAtFifth) 601 []).2.2.2.1 _ rfl⟩

/-! ### The batch stops at the first failure -/

theorem BatchDeployResources_append_ok {F : Type} (api : KubeAPI) (installFlags : F)
    (pre rest : List (InstallFunc F)) (log : List Request)
    (hpre : succeedInOrder api installFlags pre log) :
    BatchDeployResources api installFlags (pre ++ rest) log =
      BatchDeployResources api installFlags rest (runInOrder api installFlags pre log) := by
  induction pre generalizing log with
  | nil => rfl
  | cons g gs ih =>
    obtain ⟨h1, h2⟩ := hpre
    rw [List.cons_append, BatchDeployResources]
    rcases hg : g api installFlags log with ⟨log1, _ | e⟩
    · rw [hg] at h2
      have := ih log1 h2
      simpa [runInOrder, hg] using this
    · rw [hg] at h1
      simp at h1

theorem BatchDeployResources_stops {F : Type} (api : KubeAPI) (installFlags : F)
    (pre post : List (InstallFunc F)) (f : InstallFunc F) (log : List Request) (e : String)
    (hpre : succeedInOrder api installFlags pre log)
    (hf : (f api installFlags (runInOrder api installFlags pre log)).2 = some e) :
    BatchDeployResources api installFlags (pre ++ f :: post) log =
      ((f api installFlags (runInOrder api installFlags pre log)).1, some e) := by
  rw [BatchDeployResources_append_ok api installFlags pre (f :: post) log hpre,
    BatchDeployResources]
  rcases hg : f api installFlags (runInOrder api installFlags pre log) with ⟨log1, _ | e1⟩
  · rw [hg] at hf
    simp at hf
  · rw [hg] at hf
    simp only [Option.some.injEq] at hf
    rw [hf]

/-- C13: when the install functions before the `k`-th return nil, executed in
order, and the `k`-th returns the error `e`, `BatchDeployResources` returns `e`
and leaves the log of requests as the first `k` functions, executed in order,
leave it, whatever functions follow: they are not executed. The operator stage
hands it seven install functions and the mesh ingress stage three, and `Deploy`
returns that error with that log. -/
theorem C13_batch_stops_at_first_failure (ospecs : operator.Specs)
    (ispecs : meshingress.Specs) (context : StageContext) (fuel : Nat) (log : List Request)
    (e : String) :
    (∀ (F : Type) (installFlags : F) (pre post : List (InstallFunc F)) (f : InstallFunc F),
      succeedInOrder context.Client.api installFlags pre log →
      (f context.Client.api installFlags
        (runInOrder context.Client.api installFlags pre log)).2 = some e →
      BatchDeployResources context.Client.api installFlags (pre ++ f :: post) log =
        (runInOrder context.Client.api installFlags (pre ++ [f]) log, some e)) ∧
    (operator.installFuncs ospecs context.Flags).length = 7 ∧
    (meshingress.installFuncs ispecs context.Arguments).length = 3 ∧
    (∀ pre post f, operator.installFuncs ospecs context.Flags = pre ++ f :: post →
      succeedInOrder context.Client.api context.Flags pre log →
      (f context.Client.api context.Flags
        (runInOrder context.Client.api context.Flags pre log)).2 = some e →
      operator.Deploy ospecs context fuel log =
        some { err := some (StageError.install e),
               log := runInOrder context.Client.api context.Flags (pre ++ [f]) log,
               poll := none }) ∧
    (∀ pre post f, meshingress.installFuncs ispecs context.Arguments = pre ++ f :: post →
      succeedInOrder context.Client.api context.Arguments pre log →
      (f context.Client.api context.Arguments
        (runInOrder context.Client.api context.Arguments pre log)).2 = some e →
      meshingress.Deploy ispecs context fuel log =
        some { err := some (StageError.install e),
               log := runInOrder context.Client.api context.Arguments (pre ++ [f]) log,
               poll := none }) := by
  have hrun : ∀ (F : Type) (installFlags : F) (pre : List (InstallFunc F)) (f : InstallFunc F),
      runInOrder context.Client.api installFlags (pre ++ [f]) log =
        (f context.Client.api installFlags
          (runInOrder context.Client.api installFlags pre log)).1 := by
    intro F installFlags pre f
    simp [runInOrder, List.foldl_append]
  refine ⟨?_, rfl, rfl, ?_, ?_⟩
  · intro F installFlags pre post f hpre hf
    rw [hrun]
    exact BatchDeployResources_stops _ installFlags pre post f log e hpre hf
  · intro pre post f hl hpre hf
    unfold operator.Deploy
    rw [hl, BatchDeployResources_stops _ context.Flags pre post f log e hpre hf, hrun]
  · intro pre post f hl hpre hf
    unfold meshingress.Deploy
    rw [hl, BatchDeployResources_stops _ context.Arguments pre post f log e hpre hf, hrun]

/-- Instance of C13: the cluster rejects Roles, so the third install function of
the operator stage fails; the first three have sent their requests, the other
four none. -/
theorem C13_batch_stops_at_first_failure_witness :
    operator.Deploy operator.demoSpecs (demoContext rejectRoles neverReady) 601 [] =
      some { err := some (StageError.install "roles is forbidden"),
             log := [Request.applyResource "configmaps" "easemesh-operator-config" "mesh",
               Request.applyResource "services"
                 "mesh-operator-controller-manager-metrics-service" "mesh",
               Request.deployRole (operator.operatorLeaderElectionRole ⟨"mesh"⟩) "mesh"],
             poll := none } :=
  (C13_batch_stops_at_first_failure operator.demoSpecs meshingress.demoSpecs
      (demoContext rejectRoles neverReady) 601 [] "roles is forbidden").2.2.2.1
    [operator.demoSpecs.configMapSpec ⟨"mesh"⟩, operator.demoSpecs.serviceSpec ⟨"mesh"⟩]
    [operator.clusterRoleSpec ⟨"mesh"⟩, operator.roleBindingSpec ⟨"mesh"⟩,
      operator.clusterRoleBindingSpec ⟨"mesh"⟩, operator.demoSpecs.operatorDeploymentSpec ⟨"mesh"⟩]
    (operator.roleSpec ⟨"mesh"⟩) rfl ⟨rfl, rfl, trivial⟩ rfl

/-! ### Teardown -/

/-- C15: whatever the cluster answers to the individual deletions, `Clear`
returns no error; it hands its fixed lists to `DeleteResources` category by
category with the mesh namespace, and so sends exactly one delete request per
pair of those lists: for the operator the deployment, then the service and the
config map, then the eight access-control resources; for the mesh ingress the
deployment, then the service and the config map. -/
theorem C15_Clear_best_effort (context : StageContext) (log : List Request) :
    (operator.Clear context log).2 = none ∧
    (meshingress.Clear context log).2 = none ∧
    (operator.Clear context log).1 =
      DeleteResources context.Client.api operator.rbacV1Resources context.Flags.MeshNamespace
        DeleteRbacV1Resources
        (DeleteResources context.Client.api operator.coreV1Resources
          context.Flags.MeshNamespace DeleteCoreV1Resource
          (DeleteResources context.Client.api operator.appsV1Resources
            context.Flags.MeshNamespace DeleteAppsV1Resource log)) ∧
    (meshingress.Clear context log).1 =
      DeleteResources context.Client.api meshingress.coreV1Resources
        context.Arguments.MeshNameSpace DeleteCoreV1Resource
        (DeleteResources context.Client.api meshingress.appsV1Resources
          context.Arguments.MeshNameSpace DeleteAppsV1Resource log) ∧
    operator.Clear context log =
      (log ++
        [Request.delete Category.appsV1 "deployments" "easemesh-operator"
            context.Flags.MeshNamespace,
          Request.delete Category.coreV1 "services"
            "mesh-operator-controller-manager-metrics-service" context.Flags.MeshNamespace,
          Request.delete Category.coreV1 "configmap" "easemesh-operator-config"
            context.Flags.MeshNamespace,
          Request.delete Category.rbacV1 "rolebindings"
            "mesh-operator-leader-election-rolebinding" context.Flags.MeshNamespace,
          Request.delete Category.rbacV1 "roles" "mesh-operator-leader-election-role"
            context.Flags.MeshNamespace,
          Request.delete Category.rbacV1 "clusterrolebindings"
            "mesh-operator-manager-rolebinding" context.Flags.MeshNamespace,
          Request.delete Category.rbacV1 "clusterroles" "mesh-operator-manager-role"
            context.Flags.MeshNamespace,
          Request.delete Category.rbacV1 "clusterrolebindings"
            "mesh-operator-metrics-reader-rolebinding" context.Flags.MeshNamespace,
          Request.delete Category.rbacV1 "clusterroles" "mesh-operator-metrics-reader-role"
            context.Flags.MeshNamespace,
          Request.delete Category.rbacV1 "clusterrolebindings"
            "mesh-operator-proxy-rolebinding" context.Flags.MeshNamespace,
          Request.delete Category.rbacV1 "clusterroles" "mesh-operator-proxy-role"
            context.Flags.MeshNamespace],
        none) ∧
    meshingress.Clear context log =
      (log ++
        [Request.delete Category.appsV1 "deployments" "easemesh-ingress-easegress"
            context.Arguments.MeshNameSpace,
          Request.delete Category.coreV1 "services" "easemesh-ingress-service"
            context.Arguments.MeshNameSpace,
          Request.delete Category.coreV1 "configmap" "easemesh-ingress-config"
            context.Arguments.MeshNameSpace],
        none) := by
  refine ⟨rfl, rfl, rfl, rfl, ?_, ?_⟩
  · simp [operator.Clear, DeleteResources, DeleteAppsV1Resource, DeleteCoreV1Resource,
      DeleteRbacV1Resources, send, operator.appsV1Resources, operator.coreV1Resources,
      operator.rbacV1Resources, DefaultMeshOperatorName,
      DefaultMeshOperatorControllerManagerServiceName, operator.meshOperatorConfigMap,
      operator.meshOperatorLeaderElectionRole, operator.meshOperatorLeaderElectionRoleBinding,
      operator.meshOperatorManagerClusterRole, operator.meshOperatorManagerClusterRoleBinding,
      operator.meshOperatorMetricsReaderClusterRole,
      operator.meshOperatorMetricsReaderClusterRoleBinding,
      operator.meshOperatorProxyClusterRole, operator.meshOperatorProxyClusterRoleBinding]
  · simp [meshingress.Clear, DeleteResources, DeleteAppsV1Resource, DeleteCoreV1Resource, send,
      meshingress.appsV1Resources, meshingress.coreV1Resources,
      DefaultMeshIngressControllerName, DefaultMeshIngressService, DefaultMeshIngressConfig]

/-! ### Teardown against install, access control -/

/-- The access-control requests of the operator stage, spelled out. -/
theorem rbacRequests_eq (installFlags : Install) :
    operator.rbacRequests installFlags =
      [Request.deployRole (operator.operatorLeaderElectionRole installFlags)
          installFlags.MeshNamespace,
        Request.deployClusterRole operator.operatorManagerClusterRole,
        Request.deployClusterRole operator.metricsReaderClusterRole,
        Request.deployClusterRole operator.operatorProxyClusterRole,
        Request.deployRoleBinding (operator.operatorLeaderElectionRoleBinding installFlags)
          installFlags.MeshNamespace,
        Request.deployClusterRoleBinding (operator.operatorManagerClusterRoleBinding installFlags),
        Request.deployClusterRoleBinding (operator.operatorProxyClusterRoleBinding installFlags),
        Request.deployClusterRoleBinding
          (operator.operatorMetricsReaderClusterRoleBinding installFlags)] :=
  rfl

/-- The (resource, name) pairs of the access-control objects the operator stage
creates. -/
theorem rbacCreated_eq (installFlags : Install) :
    (operator.rbacRequests installFlags).filterMap rbacResource =
      [("roles", "mesh-operator-leader-election-role"),
        ("clusterroles", "mesh-operator-manager-role"),
        ("clusterroles", "mesh-operator-metrics-reader-role"),
        ("clusterroles", "mesh-operator-proxy-role"),
        ("rolebindings", "mesh-operator-leader-election-rolebinding"),
        ("clusterrolebindings", "mesh-operator-manager-rolebinding"),
        ("clusterrolebindings", "mesh-operator-proxy-rolebinding"),
        ("clusterrolebindings", "mesh-operator-metrics-reader-rolebinding")] :=
  rfl

/-- In the deletion list of `Clear` every binding is present and stands before
the role of the same component. -/
theorem rbacV1Resources_order (binding role : String)
    (h : (binding, role) ∈
      [("mesh-operator-manager-rolebinding", "mesh-operator-manager-role"),
        ("mesh-operator-proxy-rolebinding", "mesh-operator-proxy-role"),
        ("mesh-operator-metrics-reader-rolebinding", "mesh-operator-metrics-reader-role")]) :
    ("clusterrolebindings", binding) ∈ operator.rbacV1Resources ∧
    ("clusterroles", role) ∈ operator.rbacV1Resources ∧
    operator.rbacV1Resources.indexOf ("clusterrolebindings", binding) <
      operator.rbacV1Resources.indexOf ("clusterroles", role) := by
  simp only [List.mem_cons, List.mem_singleton, Prod.mk.injEq, List.not_mem_nil, or_false] at h
  rcases h with ⟨rfl, rfl⟩ | ⟨rfl, rfl⟩ | ⟨rfl, rfl⟩ <;> decide

/-- In the deletion list of `Clear` the leader election RoleBinding is present
and stands before its Role. -/
theorem rbacV1Resources_order_role :
    ("rolebindings", "mesh-operator-leader-election-rolebinding") ∈
      operator.rbacV1Resources ∧
    ("roles", "mesh-operator-leader-election-role") ∈ operator.rbacV1Resources ∧
    operator.rbacV1Resources.indexOf
        ("rolebindings", "mesh-operator-leader-election-rolebinding") <
      operator.rbacV1Resources.indexOf ("roles", "mesh-operator-leader-election-role") := by
  decide

/-- C16: the (resource, name) pairs of the `rbacV1Resources` list of `Clear` are
exactly those of the Role, ClusterRole, RoleBinding and ClusterRoleBinding
objects that `roleSpec`, `clusterRoleSpec`, `roleBindingSpec` and
`clusterRoleBindingSpec` create; every RoleBinding refers to a Role and every
ClusterRoleBinding to a ClusterRole that the stage creates; and in the deletion
list every binding stands before the role it refers to. -/
theorem C16_teardown_matches_install (installFlags : Install) :
    (∀ p, p ∈ operator.rbacV1Resources ↔
      p ∈ (operator.rbacRequests installFlags).filterMap rbacResource) ∧
    (∀ roleBinding ns,
      Request.deployRoleBinding roleBinding ns ∈ operator.rbacRequests installFlags →
      roleBinding.Ref.Kind = "Role" ∧
      (∃ role ns1, Request.deployRole role ns1 ∈ operator.rbacRequests installFlags ∧
        role.Meta.Name = roleBinding.Ref.Name) ∧
      ("rolebindings", roleBinding.Meta.Name) ∈ operator.rbacV1Resources ∧
      ("roles", roleBinding.Ref.Name) ∈ operator.rbacV1Resources ∧
      operator.rbacV1Resources.indexOf ("rolebindings", roleBinding.Meta.Name) <
        operator.rbacV1Resources.indexOf ("roles", roleBinding.Ref.Name)) ∧
    (∀ clusterRoleBinding,
      Request.deployClusterRoleBinding clusterRoleBinding ∈
        operator.rbacRequests installFlags →
      clusterRoleBinding.Ref.Kind = "ClusterRole" ∧
      (∃ clusterRole, Request.deployClusterRole clusterRole ∈
          operator.rbacRequests installFlags ∧
        clusterRole.Meta.Name = clusterRoleBinding.Ref.Name) ∧
      ("clusterrolebindings", clusterRoleBinding.Meta.Name) ∈ operator.rbacV1Resources ∧
      ("clusterroles", clusterRoleBinding.Ref.Name) ∈ operator.rbacV1Resources ∧
      operator.rbacV1Resources.indexOf ("clusterrolebindings", clusterRoleBinding.Meta.Name) <
        operator.rbacV1Resources.indexOf ("clusterroles", clusterRoleBinding.Ref.Name)) := by
  refine ⟨?_, ?_, ?_⟩
  · intro p
    rw [rbacCreated_eq]
    have hl : operator.rbacV1Resources =
        [("rolebindings", "mesh-operator-leader-election-rolebinding"),
          ("roles", "mesh-operator-leader-election-role"),
          ("clusterrolebindings", "mesh-operator-manager-rolebinding"),
          ("clusterroles", "mesh-operator-manager-role"),
          ("clusterrolebindings", "mesh-operator-metrics-reader-rolebinding"),
          ("clusterroles", "mesh-operator-metrics-reader-role"),
          ("clusterrolebindings", "mesh-operator-proxy-rolebinding"),
          ("clusterroles", "mesh-operator-proxy-role")] := rfl
    rw [hl]
    simp only [List.mem_cons, List.mem_singleton, List.not_mem_nil, or_false]
    tauto
  · intro roleBinding ns h
    rw [rbacRequests_eq] at h
    simp only [List.mem_cons, List.mem_singleton, Request.deployRoleBinding.injEq,
      reduceCtorEq, false_or, or_false, List.not_mem_nil] at h
    obtain ⟨rfl, rfl⟩ := h
    refine ⟨rfl, ⟨operator.operatorLeaderElectionRole installFlags, installFlags.MeshNamespace,
      ?_, rfl⟩, rbacV1Resources_order_role⟩
    rw [rbacRequests_eq]
    exact List.mem_cons_self _ _
  · intro clusterRoleBinding h
    rw [rbacRequests_eq] at h
    simp only [List.mem_cons, List.mem_singleton, Request.deployClusterRoleBinding.injEq,
      reduceCtorEq, false_or, or_false, List.not_mem_nil] at h
    rcases h with rfl | rfl | rfl
    · refine ⟨rfl, ⟨operator.operatorManagerClusterRole, ?_, rfl⟩,
        rbacV1Resources_order "mesh-operator-manager-rolebinding" "mesh-operator-manager-role" (by decide)⟩
      rw [rbacRequests_eq]; simp
    · refine ⟨rfl, ⟨operator.operatorProxyClusterRole, ?_, rfl⟩,
        rbacV1Resources_order "mesh-operator-proxy-rolebinding" "mesh-operator-proxy-role" (by decide)⟩
      rw [rbacRequests_eq]; simp
    · refine ⟨rfl, ⟨operator.metricsReaderClusterRole, ?_, rfl⟩,
        rbacV1Resources_order "mesh-operator-metrics-reader-rolebinding" "mesh-operator-metrics-reader-role" (by decide)⟩
      rw [rbacRequests_eq]; simp

/-- Instance of C16 in the namespace `mesh`: the leader election RoleBinding
refers to a Role. -/
theorem C16_teardown_matches_install_witness :
    Request.deployRoleBinding (operator.operatorLeaderElectionRoleBinding ⟨"mesh"⟩) "mesh" ∈
      operator.rbacRequests ⟨"mesh"⟩ ∧
    (operator.operatorLeaderElectionRoleBinding ⟨"mesh"⟩).Ref.Kind = "Role" ∧
    operator.rbacV1Resources.indexOf
        ("rolebindings", (operator.operatorLeaderElectionRoleBinding ⟨"mesh"⟩).Meta.Name) <
      operator.rbacV1Resources.indexOf
        ("roles", (operator.operatorLeaderElectionRoleBinding ⟨"mesh"⟩).Ref.Name) :=
  have h := (C16_teardown_matches_install ⟨"mesh"⟩).2.1
    (operator.operatorLeaderElectionRoleBinding ⟨"mesh"⟩) "mesh" (by decide)
  ⟨by decide, h.1, h.2.2.2.2⟩

/-! ### Command and file sources together -/

theorem entryVisitors_not_command (env : Env) (recursive : Bool) (attempts : Int) (s : String)
    (v : Visitor) (hv : v ∈ entryVisitors env recursive attempts s) (kind name : String) :
    v ≠ Visitor.commandVisitor kind name := by
  intro hc
  subst hc
  unfold entryVisitors at hv
  by_cases c1 : s = "-"
  · simp [c1] at hv
  · by_cases c2 : urlScheme s
    · simp only [c1, if_false, c2, if_true] at hv
      cases hp : env.parseURL s <;> simp [hp] at hv
    · simp only [c1, if_false, c2] at hv
      cases hst : env.stat s <;> simp [hst] at hv

theorem fileVisitors_not_command (env : Env) (b : visitorBuilder) (v : Visitor)
    (hv : v ∈ fileVisitors env b) (kind name : String) :
    v ≠ Visitor.commandVisitor kind name := by
  unfold fileVisitors at hv
  cases hfo : b.filenameOptions with
  | none => simp [hfo] at hv
  | some fo =>
    simp only [hfo, List.mem_flatMap] at hv
    obtain ⟨s, _, hs⟩ := hv
    exact entryVisitors_not_command env _ _ s v hs kind name

theorem commandVisitors_command (b : visitorBuilder) (v : Visitor)
    (hv : v ∈ commandVisitors b) : ∃ kind name, v = Visitor.commandVisitor kind name := by
  unfold commandVisitors at hv
  cases hco : b.commandOptions with
  | none => simp [hco] at hv
  | some co =>
    simp only [hco, List.mem_singleton] at hv
    exact ⟨co.Kind, co.Name, hv⟩

/-- Every visitor `Do` returns is in the sequence it leaves in the builder, and
with a nil error the two sequences are the same. -/
theorem Do_visitors (env : Env) (b : visitorBuilder) :
    (∀ v, v ∈ (b.Do env).visitors → v ∈ (b.Do env).builder.visitors) ∧
    ((b.Do env).err = none → (b.Do env).visitors = (b.Do env).builder.visitors) := by
  unfold visitorBuilder.Do
  by_cases h : (b.Command.File env).errs.length ≠ 0 <;> simp [h]

/-- C14 does not hold as stated: a builder reached through `CommandParam` and
`FilenameParam` has both sources active, and `Do` returns the command visitor
followed by a file visitor, without error. -/
theorem C14_sources_not_exclusive_counterexample :
    Reachable ((NewVisitorBuilder.CommandParam (some ⟨"service", "svc-a"⟩)).FilenameParam
      (some ⟨["a.yaml"], false⟩)) ∧
    (((NewVisitorBuilder.CommandParam (some ⟨"service", "svc-a"⟩)).FilenameParam
      (some ⟨["a.yaml"], false⟩)).Do demoEnv).err = none ∧
    (((NewVisitorBuilder.CommandParam (some ⟨"service", "svc-a"⟩)).FilenameParam
      (some ⟨["a.yaml"], false⟩)).Do demoEnv).visitors =
      [Visitor.commandVisitor "service" "svc-a", Visitor.fileVisitor "a.yaml"] :=
  ⟨Reachable.filenameParam _ (Reachable.commandParam _ Reachable.new), by decide, by decide⟩

/-- C14, amended: the builder does not keep the command source and the file, URL
and stdin sources apart. When `Do` returns no error its visitors are the ones
the builder held, then the command visitor if command options are set, then
the visitors of the filenames. On a builder that holds no visitor, `Do` returns
command visitors only when no filename options are set, and no command visitor
when no command options are set. -/
theorem C14_sources_not_exclusive_amended (env : Env) (b : visitorBuilder) :
    ((b.Do env).err = none →
      (b.Do env).visitors = b.visitors ++ commandVisitors b ++ fileVisitors env b) ∧
    (∀ v, v ∈ commandVisitors b → ∃ kind name, v = Visitor.commandVisitor kind name) ∧
    (∀ v, v ∈ fileVisitors env b → ∀ kind name, v ≠ Visitor.commandVisitor kind name) ∧
    (b.visitors = [] → b.filenameOptions = none →
      ∀ v, v ∈ (b.Do env).visitors → ∃ kind name, v = Visitor.commandVisitor kind name) ∧
    (b.visitors = [] → b.commandOptions = none →
      ∀ v, v ∈ (b.Do env).visitors → ∀ kind name, v ≠ Visitor.commandVisitor kind name) := by
  refine ⟨?_, commandVisitors_command b, fileVisitors_not_command env b, ?_, ?_⟩
  · intro h
    rw [(Do_visitors env b).2 h, Do_builder_visitors]
  · intro hvs hfo v hv
    have hmem := (Do_visitors env b).1 v hv
    rw [Do_builder_visitors, hvs] at hmem
    have hf : fileVisitors env b = [] := by simp [fileVisitors, hfo]
    rw [hf] at hmem
    simp only [List.nil_append, List.append_nil] at hmem
    exact commandVisitors_command b v hmem
  · intro hvs hco v hv
    have hmem := (Do_visitors env b).1 v hv
    rw [Do_builder_visitors, hvs] at hmem
    have hc : commandVisitors b = [] := by simp [commandVisitors, hco]
    rw [hc] at hmem
    simp only [List.nil_append, List.append_nil] at hmem
    exact fileVisitors_not_command env b v hmem

/-- Instance of the amended C14: with command options only, `Do` returns the
command visitor alone. -/
theorem C14_sources_not_exclusive_amended_witness :
    ((NewVisitorBuilder.CommandParam (some ⟨"service", "svc-a"⟩)).Do demoEnv).err = none ∧
    ((NewVisitorBuilder.CommandParam (some ⟨"service", "svc-a"⟩)).Do demoEnv).visitors =
      [] ++ commandVisitors (NewVisitorBuilder.CommandParam (some ⟨"service", "svc-a"⟩)) ++
        fileVisitors demoEnv (NewVisitorBuilder.CommandParam (some ⟨"service", "svc-a"⟩)) ∧
    ∃ kind name, Visitor.commandVisitor "service" "svc-a" = Visitor.commandVisitor kind name :=
  have h := C14_sources_not_exclusive_amended demoEnv
    (NewVisitorBuilder.CommandParam (some ⟨"service", "svc-a"⟩))
  ⟨by decide, h.1 (by decide),
   h.2.2.2.1 rfl rfl (Visitor.commandVisitor "service" "svc-a") (by decide)⟩

end EaseMesh
